import Mathlib

/-!
Verification of the query-routing and multi-agent coordination engine of the
multi-agent customer-service repository.

The Python sources under `src/` are shallowly embedded below:
* `src/agents/router_agent.py` (`RouterAgent`) — intent classification,
  dispatch, workflow strategies, response synthesis;
* `src/agents/data_agent.py` (`CustomerDataAgent`) and
  `src/mcp_server/server.py` + `src/mcp_server/database.py` — the Data
  Service provider over an in-memory image of the SQLite tables;
* `src/agents/support_agent.py` (`SupportAgent`) — the Support Service.

Conventions of the embedding:
* Python strings are Lean `String`s; `str.lower` is modelled on ASCII
  (`pyLower`), the `in` substring test by `pyIn`, `str.strip` by `pyStrip`,
  `str.upper` by `pyUpper`.
* The regular expressions used by the router are modelled character by
  character with leftmost-search semantics (`reSearch`); each pattern's
  greedy/backtracking behaviour collapses to deterministic maximal munch
  because adjacent character classes are disjoint, except for the e-mail
  pattern where the backtracking choice of the dot is modelled explicitly.
* `datetime.now()` timestamps are abstracted away: log entries carry no
  timestamp and `updated_at` is set to a fixed marker (the code never
  displays `updated_at`, so no observable behaviour depends on this).
* Exceptions raised inside a provider are caught by its `handle_request`
  (as in the sources); responses are records with `success` plus optional
  `result`/`error`, mirroring the Python dictionaries.
* The mutable `self` state of the orchestrator (the database plus the
  append-only `coordination_log`) is threaded explicitly as a value of
  type `St`.  (`conversation_history` is initialised and never used in
  the sources, so it is omitted.)
-/

/-! ### Python string primitives -/

/-- Python `\s` (ASCII white-space as used by `re` on these inputs). -/
def isPySpace (c : Char) : Bool :=
  c = ' ' || c = '\t' || c = '\n' || c = '\r' || c = '\x0b' || c = '\x0c'

/-- Python `\d` (ASCII decimal digits). -/
def isDigitCh (c : Char) : Bool := '0' ≤ c && c ≤ '9'

/-- Python `\w` (ASCII word characters). -/
def isWordCh (c : Char) : Bool :=
  isDigitCh c || ('a' ≤ c && c ≤ 'z') || ('A' ≤ c && c ≤ 'Z') || c = '_'

/-- Character class `[\w\.-]` of the e-mail pattern. -/
def isEmailCh (c : Char) : Bool := isWordCh c || c = '.' || c = '-'

/-- ASCII lowering of one character (model of `str.lower`). -/
def lowerCh (c : Char) : Char :=
  if 'A' ≤ c && c ≤ 'Z' then Char.ofNat (c.toNat + 32) else c

/-- ASCII raising of one character (model of `str.upper`). -/
def upperCh (c : Char) : Char :=
  if 'a' ≤ c && c ≤ 'z' then Char.ofNat (c.toNat - 32) else c

/-- Model of Python `str.lower`. -/
def pyLower (s : String) : String := ⟨s.data.map lowerCh⟩

/-- Model of Python `str.upper`. -/
def pyUpper (s : String) : String := ⟨s.data.map upperCh⟩

/-- Is `needle` a prefix of `hay`? -/
def chPre : List Char → List Char → Bool
  | [], _ => true
  | n :: ns, h :: hs => n = h && chPre ns hs
  | _ :: _, [] => false

/-- Is `needle` a contiguous substring of `hay`? -/
def chSub (needle : List Char) : List Char → Bool
  | [] => chPre needle []
  | c :: cs => chPre needle (c :: cs) || chSub needle cs

/-- Model of Python `needle in hay` on strings. -/
def pyIn (needle hay : String) : Bool := chSub needle.data hay.data

/-- Model of Python `str.strip` (default white-space stripping). -/
def pyStrip (s : String) : String :=
  ⟨((s.data.dropWhile isPySpace).reverse.dropWhile isPySpace).reverse⟩

/-- Python truthiness of an optional integer (`None` and `0` are falsy). -/
def cidTruthy : Option Nat → Bool
  | none => false
  | some n => n ≠ 0

/-- Python truthiness of an optional string (`None` and `""` are falsy). -/
def strTruthy : Option String → Bool
  | none => false
  | some s => s ≠ ""

/-! ### Regular-expression models for `RouterAgent.extract_customer_id`

The four patterns of `extract_customer_id` (router_agent.py lines 48-53):
`customer\s+id\s*:?\s*(\d+)`, `id\s*:?\s*(\d+)`, `customer\s+(\d+)`,
`\bI'm\s+customer\s+(\d+)`.  Each boundary between consecutive pieces joins
disjoint character classes, so greedy matching never backtracks and the
match at a given start position is computed deterministically. -/

/-- Consume a literal; return the remaining input on success. -/
def dropLit : List Char → List Char → Option (List Char)
  | [], cs => some cs
  | _ :: _, [] => none
  | l :: ls, c :: cs => if c = l then dropLit ls cs else none

/-- Consume `\s+` (at least one white-space character, maximal munch). -/
def ws1 : List Char → Option (List Char)
  | [] => none
  | c :: cs => if isPySpace c then some (cs.dropWhile isPySpace) else none

/-- Consume `:?` (an optional colon). -/
def optColon : List Char → List Char
  | ':' :: cs => cs
  | cs => cs

/-- The maximal digit run at the head of the input and the rest. -/
def digitsRun (cs : List Char) : List Char × List Char :=
  (cs.takeWhile isDigitCh, cs.dropWhile isDigitCh)

/-- Value of a digit string, as computed by Python `int`. -/
def digitsVal (ds : List Char) : Nat :=
  ds.foldl (fun a c => 10 * a + (c.toNat - 48)) 0

/-- Consume `\s*:?\s*(\d+)` and return the captured integer. -/
def sepDigits (cs : List Char) : Option Nat :=
  let r := (optColon (cs.dropWhile isPySpace)).dropWhile isPySpace
  match digitsRun r with
  | ([], _) => none
  | (ds, _) => some (digitsVal ds)

/-- Match `customer\s+id\s*:?\s*(\d+)` at the head of the input. -/
def matchP1At (cs : List Char) : Option Nat :=
  (dropLit "customer".data cs).bind fun r1 =>
  (ws1 r1).bind fun r2 =>
  (dropLit "id".data r2).bind fun r3 =>
  sepDigits r3

/-- Match `id\s*:?\s*(\d+)` at the head of the input. -/
def matchP2At (cs : List Char) : Option Nat :=
  (dropLit "id".data cs).bind fun r1 => sepDigits r1

/-- Match `customer\s+(\d+)` at the head of the input. -/
def matchP3At (cs : List Char) : Option Nat :=
  (dropLit "customer".data cs).bind fun r1 =>
  (ws1 r1).bind fun r2 =>
  match digitsRun r2 with
  | ([], _) => none
  | (ds, _) => some (digitsVal ds)

/-- Match `I'm\s+customer\s+(\d+)` at the head of the input, after a `\b`
word boundary decided from the previous character. -/
def matchP4At (prev : Option Char) (cs : List Char) : Option Nat :=
  let boundary := match prev with
    | none => true
    | some p => !isWordCh p
  if boundary then
    (dropLit "I'm".data cs).bind fun r1 =>
    (ws1 r1).bind fun r2 =>
    (dropLit "customer".data r2).bind fun r3 =>
    (ws1 r3).bind fun r4 =>
    match digitsRun r4 with
    | ([], _) => none
    | (ds, _) => some (digitsVal ds)
  else none

/-- `re.search`: try the matcher at every start position, left to right. -/
def reSearch (m : List Char → Option Nat) : List Char → Option Nat
  | [] => m []
  | c :: cs =>
    match m (c :: cs) with
    | some n => some n
    | none => reSearch m cs

/-- `re.search` for a pattern with a leading word boundary, tracking the
character before the current start position. -/
def reSearchB (m : Option Char → List Char → Option Nat) (prev : Option Char) :
    List Char → Option Nat
  | [] => m prev []
  | c :: cs =>
    match m prev (c :: cs) with
    | some n => some n
    | none => reSearchB m (some c) cs

/-- `RouterAgent.extract_customer_id` (router_agent.py lines 37-61): the four
patterns are tried in order on the lowered query; the first match wins. -/
def extract_customer_id (q : String) : Option Nat :=
  let cs := (pyLower q).data
  match reSearch matchP1At cs with
  | some n => some n
  | none =>
    match reSearch matchP2At cs with
    | some n => some n
    | none =>
      match reSearch matchP3At cs with
      | some n => some n
      | none => reSearchB matchP4At none cs

/-! ### Capability providers: lexical relevance checks -/

/-- Keyword list of `CustomerDataAgent.can_handle` (data_agent.py 36-41). -/
def dataKeywords : List String :=
  ["customer", "account", "profile", "information", "data",
   "email", "phone", "status", "update", "get", "fetch", "retrieve"]

/-- `CustomerDataAgent.can_handle`. -/
def dataCanHandle (task : String) : Bool :=
  dataKeywords.any (fun k => pyIn k (pyLower task))

/-- Keyword list of `SupportAgent.can_handle` (support_agent.py 35-41). -/
def supportKeywords : List String :=
  ["help", "support", "issue", "problem", "ticket",
   "upgrade", "cancel", "billing", "refund", "assistance",
   "question", "how to", "can't", "cannot", "error"]

/-- `SupportAgent.can_handle`. -/
def supportCanHandle (task : String) : Bool :=
  supportKeywords.any (fun k => pyIn k (pyLower task))

/-! ### The intent classifier `RouterAgent.analyze_query` -/

/-- The complexity tier strings `"simple"`, `"complex"`, `"multi-step"`. -/
inductive Complexity where
  | simple
  | complex
  | multiStep
deriving DecidableEq, Repr

/-- The analysis dictionary built by `RouterAgent.analyze_query`. -/
structure Analysis where
  query : String
  customer_id : Option Nat
  needs_data_agent : Bool
  needs_support_agent : Bool
  needs_coordination : Bool
  complexity : Complexity
  intents : List String
deriving DecidableEq, Repr

/-- `RouterAgent.analyze_query` (router_agent.py lines 63-127): keyword
detection of required capabilities, then the ordered complexity cascade. -/
def analyzeQuery (q : String) : Analysis :=
  let ql := pyLower q
  let cid := extract_customer_id q
  let nd := dataCanHandle q
  let ns := supportCanHandle q
  let intents := (if nd then ["data"] else []) ++ (if ns then ["support"] else [])
  -- first cascade (lines 97-106)
  let step1 : Complexity × Bool :=
    if pyIn "active customers" ql && pyIn "tickets" ql then (.multiStep, true)
    else if intents.length > 1 then (.complex, true)
    else if ["all", "list", "show me", "get all"].any (fun k => pyIn k ql) then
      (.complex, true)
    else (.simple, false)
  -- second cascade (lines 108-123)
  if ["and", "also", "then", "after"].any (fun k => pyIn k ql) then
    { query := q, customer_id := cid, needs_data_agent := nd,
      needs_support_agent := ns, needs_coordination := true,
      complexity := .multiStep, intents := intents }
  else if (pyIn "update" ql || pyIn "change" ql) &&
      (pyIn "email" ql || pyIn "phone" ql) then
    { query := q, customer_id := cid, needs_data_agent := nd,
      needs_support_agent := ns, needs_coordination := true,
      complexity := .multiStep, intents := intents }
  else if (pyIn "status" ql || pyIn "what is" ql) && pyIn "ticket" ql &&
      pyIn "priority" ql then
    let i1 := if intents.contains "data" then intents else intents ++ ["data"]
    let i2 := if i1.contains "support" then i1 else i1 ++ ["support"]
    { query := q, customer_id := cid, needs_data_agent := nd,
      needs_support_agent := ns, needs_coordination := true,
      complexity := .multiStep, intents := i2 }
  else
    { query := q, customer_id := cid, needs_data_agent := nd,
      needs_support_agent := ns, needs_coordination := step1.2,
      complexity := step1.1, intents := intents }

/-! ### The customer database (`mcp_server/database.py`)

The SQLite tables are modelled as in-memory lists of rows.  The `id`
column of `customers` is the primary key, so lookups return the first (and
only) matching row. -/

/-- A row of the `customers` table. -/
structure Customer where
  id : Nat
  name : String
  email : String
  phone : String
  status : String
  created_at : String
  updated_at : String
deriving DecidableEq, Repr, Inhabited

/-- A row of the `tickets` table. -/
structure Ticket where
  id : Nat
  customer_id : Nat
  issue : String
  status : String
  priority : String
  created_at : String
deriving DecidableEq, Repr, Inhabited

/-- The database state. -/
structure DB where
  customers : List Customer
  tickets : List Ticket
deriving DecidableEq, Repr, Inhabited

/-- `CustomerDatabase.get_customer`: `SELECT ... WHERE id = ?`. -/
def dbGetCustomer (db : DB) (cid : Nat) : Option Customer :=
  db.customers.find? (fun c => c.id == cid)

/-- `CustomerDatabase.list_customers`: optional status filter, then `LIMIT`. -/
def dbListCustomers (db : DB) (status : Option String) (lim : Nat) :
    List Customer :=
  if strTruthy status then
    (db.customers.filter (fun c => some c.status == status)).take lim
  else
    db.customers.take lim

/-- The fields-to-update dictionary passed to `update_customer`. -/
structure Updates where
  name : Option String := none
  email : Option String := none
  phone : Option String := none
  status : Option String := none
deriving DecidableEq, Repr

/-- Apply an update dictionary to one customer row; `updated_at` is set to
an abstract marker in place of `datetime.now().isoformat()` (the value is
never displayed by the orchestrator). -/
def applyUpdates (c : Customer) (u : Updates) : Customer :=
  { c with
    name := u.name.getD c.name,
    email := u.email.getD c.email,
    phone := u.phone.getD c.phone,
    status := u.status.getD c.status,
    updated_at := "<updated>" }

/-- `CustomerDatabase.update_customer`: returns whether a row was updated
(`rowcount > 0`) together with the new database state. -/
def dbUpdateCustomer (db : DB) (cid : Nat) (u : Updates) : Bool × DB :=
  if u.name.isNone && u.email.isNone && u.phone.isNone && u.status.isNone then
    (false, db)
  else if db.customers.any (fun c => c.id == cid) then
    (true,
     { db with customers :=
         db.customers.map (fun c => if c.id == cid then applyUpdates c u else c) })
  else (false, db)

/-- Stable insertion of a ticket into a list sorted descending by
`created_at` (model of `ORDER BY created_at DESC`). -/
def insertDescByCreated (t : Ticket) : List Ticket → List Ticket
  | [] => [t]
  | u :: us =>
    if t.created_at < u.created_at then u :: insertDescByCreated t us
    else t :: u :: us

/-- Sort tickets descending by `created_at` (stable). -/
def sortDescByCreated (ts : List Ticket) : List Ticket :=
  ts.foldr insertDescByCreated []

/-- `CustomerDatabase.get_customer_history`: the customer's tickets,
newest first. -/
def dbGetHistory (db : DB) (cid : Nat) : List Ticket :=
  sortDescByCreated (db.tickets.filter (fun t => t.customer_id == cid))

/-! ### The Data Service (`agents/data_agent.py` over `mcp_server/server.py`)

`CustomerDataAgent.handle_request` dispatches on the action name, calls the
matching MCP tool, and converts a raised `ValueError` into a
`success=False` response.  The composition of agent method + MCP tool +
database call is modelled per action. -/

/-- The success payload of a Data Service response. -/
inductive DataResult where
  | customer (c : Customer)
  | customers (cs : List Customer)
  | tickets (ts : List Ticket)
  | existsFlag (b : Bool)
deriving DecidableEq, Repr

/-- A Data Service action request issued by the router (the `action` name
plus its `parameters`). -/
inductive DataReq where
  | getCustomer (customer_id : Nat)
  | listCustomers (status : Option String) (lim : Nat)
  | updateCustomer (customer_id : Nat) (updates : Updates)
  | getHistory (customer_id : Nat)
  | validateCustomer (customer_id : Nat)
  | getPremiumCustomers
deriving DecidableEq, Repr

/-- The response dictionary built by `CustomerDataAgent.handle_request`:
`success` plus `result` on success or `error` on failure. -/
structure DataResp where
  success : Bool
  agent : String := "CustomerDataAgent"
  result : Option DataResult := none
  error : Option String := none
deriving DecidableEq, Repr

/-- `CustomerDataAgent.handle_request` (data_agent.py lines 166-214)
composed with the MCP tools (server.py lines 160-200).  A missing customer
raises `ValueError(f"Customer {id} not found")`, caught and returned as a
failed response.  After a successful update the tool re-reads the row
(server.py line 179) — `result` mirrors the possibly-`None` value Python
would return there, though a successful update implies the row exists. -/
def dataHandleRequest (db : DB) (req : DataReq) : DataResp × DB :=
  match req with
  | .getCustomer cid =>
    match dbGetCustomer db cid with
    | some c => ({ success := true, result := some (.customer c) }, db)
    | none =>
      ({ success := false, error := some ("Customer " ++ toString cid ++ " not found") }, db)
  | .listCustomers status lim =>
    ({ success := true, result := some (.customers (dbListCustomers db status lim)) }, db)
  | .updateCustomer cid u =>
    let r := dbUpdateCustomer db cid u
    if r.1 then
      ({ success := true, result := (dbGetCustomer r.2 cid).map DataResult.customer }, r.2)
    else
      ({ success := false,
         error := some ("Failed to update customer " ++ toString cid) }, db)
  | .getHistory cid =>
    ({ success := true, result := some (.tickets (dbGetHistory db cid)) }, db)
  | .validateCustomer cid =>
    ({ success := true, result := some (.existsFlag (dbGetCustomer db cid).isSome) }, db)
  | .getPremiumCustomers =>
    ({ success := true,
       result := some (.customers (dbListCustomers db (some "active") 100)) }, db)

/-! ### The Support Service (`agents/support_agent.py`) -/

/-- `SupportAgent.analyze_urgency` (support_agent.py lines 43-73). -/
def analyzeUrgency (q : String) : String :=
  let ql := pyLower q
  let highPriority :=
    ["urgent", "immediately", "critical", "emergency", "asap",
     "charged twice", "cannot access", "locked out", "security",
     "fraud", "unauthorized", "hacked"]
  let mediumPriority :=
    ["billing", "payment", "refund", "cancel", "upgrade",
     "not working", "broken", "error", "failed"]
  if highPriority.any (fun k => pyIn k ql) then "high"
  else if mediumPriority.any (fun k => pyIn k ql) then "medium"
  else "low"

/-- The intent keyword table of `SupportAgent.detect_multiple_intents`, in
dictionary insertion order. -/
def intentKeywords : List (String × List String) :=
  [("billing", ["billing", "charged", "payment", "invoice", "refund"]),
   ("cancellation", ["cancel", "unsubscribe", "stop subscription"]),
   ("upgrade", ["upgrade", "premium", "tier", "plan change"]),
   ("technical", ["not working", "error", "bug", "broken", "crash"]),
   ("account", ["account", "profile", "password", "login", "access"]),
   ("information", ["show", "get", "display", "what", "status"])]

/-- `SupportAgent.detect_multiple_intents` (support_agent.py lines 75-101). -/
def detectMultipleIntents (q : String) : List String :=
  let ql := pyLower q
  (intentKeywords.filter (fun p => p.2.any (fun k => pyIn k ql))).map (·.1)

/-- `SupportAgent.needs_customer_context` (support_agent.py lines 133-147). -/
def needsCustomerContext (q : String) : Bool :=
  ["my account", "my subscription", "my billing", "my profile",
   "customer id", "i am", "i'm", "upgrade my", "cancel my"].any
    (fun k => pyIn k (pyLower q))

/-- `SupportAgent.generate_solution` (support_agent.py lines 149-169). -/
def generateSolution (issueType : String) : String :=
  let solutions : List (String × String) :=
    [("billing", "I can help you with billing issues. Let me review your account and recent transactions."),
     ("upgrade", "I'd be happy to help you upgrade your account. Let me check your current plan and available options."),
     ("technical", "I understand you're experiencing technical difficulties. Let me investigate this issue for you."),
     ("cancellation", "I'm sorry to hear you want to cancel. Let me help you with that process."),
     ("account", "I can assist you with your account. Let me pull up your information."),
     ("password", "For password issues, I can help you reset it securely.")]
  ((solutions.find? (fun p => p.1 == issueType)).map (·.2)).getD
    "I'm here to help. Let me look into this for you."

/-- The response dictionary of `SupportAgent.handle_support_query`. -/
structure SupportResult where
  priority : String
  intents : List String
  needs_customer_context : Bool
  needs_escalation : Bool
  solution : String
  customer_name : Option String := none
  customer_status : Option String := none
deriving DecidableEq, Repr

/-- `SupportAgent.handle_support_query` (support_agent.py lines 171-210). -/
def supportHandleQuery (q : String) (customerData : Option Customer) :
    SupportResult :=
  let priority := analyzeUrgency q
  let intents := detectMultipleIntents q
  let needsContext := needsCustomerContext q
  let solution :=
    match intents with
    | i :: _ => generateSolution i
    | [] => "I'm here to help. Could you provide more details about your issue?"
  { priority := priority,
    intents := intents,
    needs_customer_context := needsContext,
    needs_escalation := intents.length > 1 || priority == "high",
    solution := solution,
    customer_name := customerData.map (·.name),
    customer_status := customerData.map (·.status) }

/-- A Support Service action request issued by the router: `handle_query`
with the raw query and optional customer context.  (The router never
dispatches the agent's other actions.) -/
inductive SupportReq where
  | handleQuery (query : String) (customer_data : Option Customer)
deriving DecidableEq, Repr

/-- The response dictionary built by `SupportAgent.handle_request`. -/
structure SupportResp where
  success : Bool
  agent : String := "SupportAgent"
  result : Option SupportResult := none
  error : Option String := none
deriving DecidableEq, Repr

/-- `SupportAgent.handle_request` (support_agent.py lines 212-257) for the
`handle_query` action: `handle_support_query` is pure and total, so the
response always succeeds. -/
def supportHandleRequest (req : SupportReq) : SupportResp :=
  match req with
  | .handleQuery q cd => { success := true, result := some (supportHandleQuery q cd) }

/-! ### The orchestrator state and coordination trace (`RouterAgent`) -/

/-- Agent names (constructor defaults in the sources). -/
def routerName : String := "RouterAgent"

/-- Name of the Data Service agent. -/
def dataAgentName : String := "CustomerDataAgent"

/-- Name of the Support Service agent. -/
def supportAgentName : String := "SupportAgent"

/-- A request dispatched by the router to one of the providers. -/
inductive Req where
  | data (r : DataReq)
  | support (r : SupportReq)
deriving DecidableEq, Repr

/-- One entry of `RouterAgent.coordination_log`.  `RouterAgent.log` appends
`info` entries; `RouterAgent.log_a2a_communication` appends `a2aSend`
(outbound request, the `action` with its parameters) before the provider
call, `a2aRecv` (inbound `Success`/`Failed` summary) after it, and `a2aMsg`
for plain-text agent-to-agent notes.  Wall-clock timestamps are omitted;
chronology is the list order. -/
inductive LogEntry where
  | info (msg : String)
  | a2aSend (fromAgent toAgent : String) (req : Req)
  | a2aRecv (fromAgent toAgent : String) (ok : Bool)
  | a2aMsg (fromAgent toAgent : String) (msg : String)
deriving DecidableEq, Repr

/-- The mutable orchestrator state: the database behind the Data Service
plus the append-only coordination log. -/
structure St where
  db : DB
  log : List LogEntry
deriving DecidableEq, Repr

/-- Append one coordination-log entry (`self.coordination_log.append`). -/
def pushLog (st : St) (e : LogEntry) : St :=
  { st with log := st.log ++ [e] }

/-- `RouterAgent.log`. -/
def logInfo (st : St) (msg : String) : St :=
  pushLog st (.info msg)

/-- `RouterAgent.route_to_data_agent` (router_agent.py lines 129-156):
outbound trace entry, provider call, inbound trace entry. -/
def routeToDataAgent (st : St) (req : DataReq) : DataResp × St :=
  let st1 := pushLog st (.a2aSend routerName dataAgentName (.data req))
  let r := dataHandleRequest st1.db req
  let st2 := pushLog { st1 with db := r.2 } (.a2aRecv dataAgentName routerName r.1.success)
  (r.1, st2)

/-- `RouterAgent.route_to_support_agent` (router_agent.py lines 158-185). -/
def routeToSupportAgent (st : St) (req : SupportReq) : SupportResp × St :=
  let st1 := pushLog st (.a2aSend routerName supportAgentName (.support req))
  let resp := supportHandleRequest req
  let st2 := pushLog st1 (.a2aRecv supportAgentName routerName resp.success)
  (resp, st2)

/-- Read the customer record out of a Data Service payload.  Wherever the
router uses this, the payload is a customer record by construction; the
default is never reached. -/
def asCustomer (r : Option DataResult) : Customer :=
  match r with
  | some (.customer c) => c
  | _ => default

/-- Read a customer list out of a Data Service payload (same remark). -/
def asCustomers (r : Option DataResult) : List Customer :=
  match r with
  | some (.customers cs) => cs
  | _ => []

/-- Read a ticket list out of a Data Service payload (same remark). -/
def asTickets (r : Option DataResult) : List Ticket :=
  match r with
  | some (.tickets ts) => ts
  | _ => []

/-- Read the result out of a Support Service response; the solution default
mirrors `response["result"].get("solution", "I'm here to help!")`. -/
def supportSolution (r : Option SupportResult) : String :=
  match r with
  | some sr => sr.solution
  | none => "I'm here to help!"

/-! ### Negotiation sub-protocol (`RouterAgent.negotiate_between_agents`) -/

/-- The `coordinated_response["responses"]` dictionary. -/
structure Coordinated where
  support : Option SupportResp := none
  data : Option DataResp := none
  support_with_context : Option SupportResp := none
deriving DecidableEq, Repr

/-- `RouterAgent.negotiate_between_agents` (router_agent.py lines 187-236):
ask the Support Service; when it flags `needs_customer_context` and an id
was extracted, fetch the customer and re-ask with that record attached. -/
def negotiateBetweenAgents (st : St) (q : String) (a : Analysis) :
    Coordinated × St :=
  let st := logInfo st "Starting agent negotiation for complex query"
  if a.needs_support_agent then
    let st := pushLog st (.a2aMsg routerName supportAgentName "Can you handle this query?")
    let p1 := routeToSupportAgent st (.handleQuery q none)
    let sresp := p1.1
    let st := p1.2
    let needsCtx :=
      sresp.success &&
        (match sresp.result with
         | some r => r.needs_customer_context
         | none => false)
    if needsCtx then
      let st := logInfo st "Support Agent needs customer context, requesting from Data Agent"
      if cidTruthy a.customer_id then
        let cid := a.customer_id.getD 0
        let p2 := routeToDataAgent st (.getCustomer cid)
        let dresp := p2.1
        let st := p2.2
        if dresp.success then
          let st := logInfo st "Providing customer context to Support Agent"
          let cd : Option Customer :=
            match dresp.result with
            | some (.customer c) => some c
            | _ => none
          let p3 := routeToSupportAgent st (.handleQuery q cd)
          ({ support := some sresp, data := some dresp,
             support_with_context := some p3.1 }, p3.2)
        else ({ support := some sresp, data := some dresp }, st)
      else ({ support := some sresp }, st)
    else ({ support := some sresp }, st)
  else ({}, st)

/-! ### Simple strategy (`RouterAgent.handle_simple_query`) -/

/-- The four-line customer-information rendering used by several branches. -/
def customerInfoText (c : Customer) : String :=
  "Customer Information:\nName: " ++ c.name ++ "\nEmail: " ++ c.email ++
    "\nPhone: " ++ c.phone ++ "\nStatus: " ++ c.status

/-- Ticket-history rendering of `handle_simple_query` (and of the identical
branch of `handle_complex_query`): header plus two lines per ticket, then
`str.strip`. -/
def historyText (cid : Nat) (ts : List Ticket) : String :=
  pyStrip ((ts.foldl
    (fun acc t =>
      acc ++ "  • [" ++ pyUpper t.status ++ "] " ++ t.issue ++ "\n" ++
        "    Priority: " ++ t.priority ++ ", Created: " ++ t.created_at ++ "\n")
    ("Ticket History for Customer " ++ toString cid ++ ":\n")))

/-- `RouterAgent.handle_simple_query` (router_agent.py lines 238-318). -/
def handleSimpleQuery (st : St) (q : String) (a : Analysis) : String × St :=
  let st := logInfo st "Handling simple query"
  let ql := pyLower q
  -- field-specific lookup (lines 254-277); falls through when the inner
  -- field-keyword test fails
  if cidTruthy a.customer_id && (pyIn "what is" ql || pyIn "what's" ql) &&
      ["name", "email", "phone", "status", "information", "info"].any
        (fun f => pyIn f ql) then
    let cid := a.customer_id.getD 0
    let p := routeToDataAgent st (.getCustomer cid)
    let resp := p.1
    let st := p.2
    if resp.success then
      let c := asCustomer resp.result
      if pyIn "name" ql && !pyIn "email" ql then
        ("The name of customer " ++ toString cid ++ " is " ++ c.name ++ ".", st)
      else if pyIn "email" ql then
        ("The email of customer " ++ toString cid ++ " is " ++ c.email ++ ".", st)
      else if pyIn "phone" ql then
        ("The phone of customer " ++ toString cid ++ " is " ++ c.phone ++ ".", st)
      else if pyIn "status" ql then
        ("Customer " ++ toString cid ++ " status is " ++ c.status ++ ".", st)
      else (customerInfoText c, st)
    else ("Error: " ++ resp.error.getD "", st)
  -- customer info queries (lines 280-292); falls through when no id
  else if ["get customer", "show me customer", "customer information"].any
      (fun ph => pyIn ph ql) && cidTruthy a.customer_id then
    let cid := a.customer_id.getD 0
    let p := routeToDataAgent st (.getCustomer cid)
    let resp := p.1
    let st := p.2
    if resp.success then (customerInfoText (asCustomer resp.result), st)
    else ("Error: " ++ resp.error.getD "", st)
  -- history queries (lines 295-311)
  else if (pyIn "history" ql || pyIn "tickets" ql) && cidTruthy a.customer_id then
    let cid := a.customer_id.getD 0
    let p := routeToDataAgent st (.getHistory cid)
    let resp := p.1
    let st := p.2
    if resp.success then
      let ts := asTickets resp.result
      if ts ≠ [] then (historyText cid ts, st)
      else ("No tickets found for customer " ++ toString cid, st)
    else ("Error: " ++ resp.error.getD "", st)
  -- default: forward to the Support Service (lines 313-318)
  else
    let p := routeToSupportAgent st (.handleQuery q none)
    let resp := p.1
    let st := p.2
    if resp.success then (supportSolution resp.result, st)
    else ("Error: " ++ resp.error.getD "", st)

/-! ### Complex strategy (`RouterAgent.handle_complex_query`) -/

/-- `RouterAgent.handle_complex_query` (router_agent.py lines 320-418):
three pattern-matched special cases, then negotiation plus synthesis. -/
def handleComplexQuery (st : St) (q : String) (a : Analysis) : String × St :=
  let st := logInfo st "Handling complex query with agent coordination"
  let ql := pyLower q
  -- ticket history (lines 336-357; the nested test repeats the outer one)
  if (pyIn "ticket" ql || pyIn "history" ql) && cidTruthy a.customer_id then
    let cid := a.customer_id.getD 0
    let p := routeToDataAgent st (.getHistory cid)
    let resp := p.1
    let st := p.2
    if resp.success then
      let ts := asTickets resp.result
      if ts ≠ [] then (historyText cid ts, st)
      else ("No tickets found for customer " ++ toString cid, st)
    else ("Error: " ++ resp.error.getD "", st)
  -- list customers (lines 360-383)
  else if pyIn "list" ql && pyIn "customer" ql then
    let status : Option String :=
      if pyIn "active" ql then some "active"
      else if pyIn "disabled" ql then some "disabled"
      else none
    let p := routeToDataAgent st (.listCustomers status 10)
    let resp := p.1
    let st := p.2
    if resp.success then
      let cs := asCustomers resp.result
      if cs ≠ [] then
        (pyStrip (cs.foldl
          (fun acc c =>
            acc ++ "  • " ++ c.name ++ " (ID: " ++ toString c.id ++
              ", Status: " ++ c.status ++ ")\n")
          ("Customer List (" ++ toString cs.length ++ " customers):\n")), st)
      else ("No customers found", st)
    else ("Error: " ++ resp.error.getD "", st)
  -- show me customer X (lines 386-398)
  else if pyIn "show" ql && pyIn "customer" ql && cidTruthy a.customer_id then
    let cid := a.customer_id.getD 0
    let p := routeToDataAgent st (.getCustomer cid)
    let resp := p.1
    let st := p.2
    if resp.success then (customerInfoText (asCustomer resp.result), st)
    else ("Error: " ++ resp.error.getD "", st)
  -- negotiation plus synthesis (lines 401-418)
  else
    let pc := negotiateBetweenAgents st q a
    let co := pc.1
    let st := pc.2
    let parts : List String :=
      (match co.data with
       | some d =>
         if d.success then
           ["Customer: " ++ (asCustomer d.result).name ++ " (" ++
             (asCustomer d.result).status ++ ")"]
         else []
       | none => []) ++
      (match co.support_with_context with
       | some swc => [(match swc.result with | some r => r.solution | none => "")]
       | none =>
         match co.support with
         | some sresp => [(match sresp.result with | some r => r.solution | none => "")]
         | none => [])
    if parts ≠ [] then (String.intercalate "\n" parts, st)
    else ("I'm working on your request.", st)

/-! ### E-mail and phone extraction used by the multi-step strategy -/

/-- Rightmost decomposition of a `[\w\.-]` class run as `A ++ '.' :: W`
with `W` a non-empty word-character run: the greedy backtracking choice of
`[\w\.-]+\.\w+`.  Deeper (more to the right) splits are preferred. -/
def emailDot : List Char → Option (List Char)
  | [] => none
  | c :: cs =>
    match emailDot cs with
    | some m => some (c :: m)
    | none =>
      if c = '.' then
        match cs with
        | w :: _ => if isWordCh w then some ('.' :: cs.takeWhile isWordCh) else none
        | [] => none
      else none

/-- The `[\w\.-]+\.\w+` tail after `@`: at least one class character must
precede the chosen dot, so the dot is searched strictly after the first
character of the run. -/
def emailSplit (run : List Char) : Option (List Char) :=
  match run with
  | [] => none
  | c :: cs => (emailDot cs).map (fun m => c :: m)

/-- Match the pattern `[\w\.-]+@[\w\.-]+\.\w+` at the head of the input and
return the matched text.  The part before `@` is maximal munch (the class
excludes `@`); after `@`, greedy backtracking picks the last dot of the
class run that is followed by a word character. -/
def matchEmailAt (cs : List Char) : Option (List Char) :=
  let p1 := cs.takeWhile isEmailCh
  let r1 := cs.dropWhile isEmailCh
  if p1 ≠ [] then
    match r1 with
    | '@' :: r2 =>
      let run := r2.takeWhile isEmailCh
      (emailSplit run).map (fun p => p1 ++ '@' :: p)
    | _ => none
  else none

/-- Search `[\w\.-]+@[\w\.-]+\.\w+` at every start position. -/
def emailSearch : List Char → Option (List Char)
  | [] => none
  | c :: cs =>
    match matchEmailAt (c :: cs) with
    | some m => some m
    | none => emailSearch cs

/-- Match `\d{3}-?\d{4}` at the head of the input. -/
def matchPhoneAt (cs : List Char) : Option (List Char) :=
  match cs with
  | a :: b :: c :: rest =>
    if isDigitCh a && isDigitCh b && isDigitCh c then
      match rest with
      | '-' :: d :: e :: f :: g :: _ =>
        if isDigitCh d && isDigitCh e && isDigitCh f && isDigitCh g then
          some [a, b, c, '-', d, e, f, g]
        else none
      | d :: e :: f :: g :: _ =>
        if isDigitCh d && isDigitCh e && isDigitCh f && isDigitCh g then
          some [a, b, c, d, e, f, g]
        else none
      | _ => none
    else none
  | _ => none

/-- Search `\d{3}-?\d{4}` at every start position. -/
def phoneSearch : List Char → Option (List Char)
  | [] => none
  | c :: cs =>
    match matchPhoneAt (c :: cs) with
    | some m => some m
    | none => phoneSearch cs

/-! ### Multi-step strategy (`RouterAgent.handle_multi_step_query`)

Each `elif` case of the Python function (router_agent.py lines 420-675) is
factored into its own definition; `handleMultiStepQuery` reproduces the
`elif` chain.  Every case returns the `results` list of lines it appended;
the final answer joins them with newlines, or falls back to
`"Query processed."` when no line was produced. -/

/-- One collected entry of the analytical ticket query (Case 0). -/
structure FilteredTicket where
  customer : String
  issue : String
  status : String
  priority : String
deriving DecidableEq, Repr

/-- Does a ticket pass the optional priority filter? -/
def priorityMatch (pf : Option String) (t : Ticket) : Bool :=
  match pf with
  | none => true
  | some p => t.priority == p

/-- Per-customer history fetches of Case 0 (lines 458-472), collecting the
tickets that pass the priority filter, in customer-then-ticket order. -/
def case0Loop (pf : Option String) (cs : List Customer) (st : St) :
    List FilteredTicket × St :=
  match cs with
  | [] => ([], st)
  | c :: rest =>
    let p := routeToDataAgent st (.getHistory c.id)
    let hresp := p.1
    let st := p.2
    let new : List FilteredTicket :=
      if hresp.success then
        ((asTickets hresp.result).filter (priorityMatch pf)).map
          (fun t => ⟨c.name, t.issue, t.status, t.priority⟩)
      else []
    let q := case0Loop pf rest st
    (new ++ q.1, q.2)

/-- Case 0: analytical ticket query (lines 437-484). -/
def msCase0 (st : St) (ql : String) : List String × St :=
  let st := logInfo st "Analytical ticket query detected"
  let pf : Option String :=
    if pyIn "high" ql && pyIn "priority" ql then some "high"
    else if pyIn "medium" ql && pyIn "priority" ql then some "medium"
    else if pyIn "low" ql && pyIn "priority" ql then some "low"
    else none
  let p := routeToDataAgent st (.getPremiumCustomers)
  let cresp := p.1
  let st := p.2
  if cresp.success then
    let customers := asCustomers cresp.result
    let q := case0Loop pf (customers.take 10) st
    let filtered := q.1
    let st := q.2
    let priorityDesc := match pf with
      | some pr => pr ++ "-priority "
      | none => ""
    if filtered ≠ [] then
      (("Found " ++ toString filtered.length ++ " " ++ priorityDesc ++ "tickets:\n") ::
        (filtered.take 10).foldr
          (fun t acc =>
            ("  • " ++ t.customer ++ ": [" ++ pyUpper t.status ++ "] " ++ t.issue) ::
            ("    Priority: " ++ t.priority) :: acc)
          [], st)
    else (["No " ++ priorityDesc ++ "tickets found."], st)
  else (["Unable to retrieve ticket data."], st)

/-- One collected entry of Case 1 (a customer with open tickets). -/
structure CustomerWithTickets where
  customer : Customer
  open_tickets : Nat
deriving DecidableEq, Repr

/-- Per-customer history fetches of Case 1 (lines 500-512): keep customers
with at least one open ticket, with their open-ticket count. -/
def case1Loop (cs : List Customer) (st : St) : List CustomerWithTickets × St :=
  match cs with
  | [] => ([], st)
  | c :: rest =>
    let p := routeToDataAgent st (.getHistory c.id)
    let hresp := p.1
    let st := p.2
    let new : List CustomerWithTickets :=
      if hresp.success then
        let openTickets := (asTickets hresp.result).filter (fun t => t.status == "open")
        if openTickets ≠ [] then [⟨c, openTickets.length⟩] else []
      else []
    let q := case1Loop rest st
    (new ++ q.1, q.2)

/-- Case 1: active customers with open tickets (lines 487-522).  When the
customer fetch fails nothing is appended (the function then falls through
to the generic acknowledgement). -/
def msCase1 (st : St) : List String × St :=
  let st := logInfo st "Step 1: Getting active customers"
  let p := routeToDataAgent st (.getPremiumCustomers)
  let cresp := p.1
  let st := p.2
  if cresp.success then
    let customers := asCustomers cresp.result
    let head := "Found " ++ toString customers.length ++ " active customers"
    let st := logInfo st "Step 2: Getting tickets for customers"
    let q := case1Loop (customers.take 5) st
    let withTickets := q.1
    let st := q.2
    if withTickets ≠ [] then
      (head :: "\nActive customers with open tickets:" ::
        withTickets.map (fun item =>
          "- " ++ item.customer.name ++ ": " ++ toString item.open_tickets ++
            " open ticket(s)"), st)
    else ([head, "No active customers with open tickets found."], st)
  else ([], st)

/-- Case 2: update e-mail, optionally followed by the ticket history
(lines 525-561).  The e-mail is extracted from the raw (unlowered) query. -/
def msCase2 (st : St) (q ql : String) (cid : Nat) : List String × St :=
  match emailSearch q.data with
  | some em =>
    let newEmail : String := ⟨em⟩
    let st := logInfo st ("Step 1: Updating email for customer " ++ toString cid)
    let p := routeToDataAgent st (.updateCustomer cid { email := some newEmail })
    let uresp := p.1
    let st := p.2
    let first :=
      if uresp.success then
        "✓ Email updated to " ++ newEmail ++ " for customer " ++ toString cid
      else "Error updating email: " ++ uresp.error.getD "Unknown error"
    if pyIn "history" ql || pyIn "ticket" ql then
      let st := logInfo st ("Step 2: Getting ticket history for customer " ++ toString cid)
      let ph := routeToDataAgent st (.getHistory cid)
      let hresp := ph.1
      let st := ph.2
      if hresp.success then
        (first :: "\nTicket History:" ::
          (asTickets hresp.result).map (fun t =>
            "  - [" ++ pyUpper t.status ++ "] " ++ t.issue ++
              " (Priority: " ++ t.priority ++ ")"), st)
      else ([first, "No tickets found"], st)
    else ([first], st)
  | none => (["Could not extract email address from query"], st)

/-- Case 2b: update phone (lines 564-590); on success the refreshed record
is shown. -/
def msCase2b (st : St) (q : String) (cid : Nat) : List String × St :=
  match phoneSearch q.data with
  | some ph =>
    let newPhone : String := ⟨ph⟩
    let st := logInfo st ("Updating phone for customer " ++ toString cid)
    let p := routeToDataAgent st (.updateCustomer cid { phone := some newPhone })
    let uresp := p.1
    let st := p.2
    if uresp.success then
      let c := asCustomer uresp.result
      (["✓ Phone updated to " ++ newPhone ++ " for customer " ++ toString cid,
        "\nUpdated Customer Information:",
        "  Name: " ++ c.name,
        "  Email: " ++ c.email,
        "  Phone: " ++ c.phone], st)
    else (["Error updating phone: " ++ uresp.error.getD "Unknown error"], st)
  | none => (["Could not extract phone number from query"], st)

/-- Case 2c: change/update e-mail, alternate phrasing (lines 593-617). -/
def msCase2c (st : St) (q : String) (cid : Nat) : List String × St :=
  match emailSearch q.data with
  | some em =>
    let newEmail : String := ⟨em⟩
    let st := logInfo st ("Changing email for customer " ++ toString cid)
    let p := routeToDataAgent st (.updateCustomer cid { email := some newEmail })
    let uresp := p.1
    let st := p.2
    if uresp.success then
      let c := asCustomer uresp.result
      (["✓ Email changed to " ++ newEmail ++ " for customer " ++ toString cid,
        "\nUpdated Customer Information:",
        "  Name: " ++ c.name,
        "  Email: " ++ c.email], st)
    else (["Error changing email: " ++ uresp.error.getD "Unknown error"], st)
  | none => (["Could not extract email address from query"], st)

/-- Case 3: plain ticket-history request with a known customer id
(lines 620-640). -/
def msCase3 (st : St) (cid : Nat) : List String × St :=
  let st := logInfo st ("Getting ticket history for customer " ++ toString cid)
  let p := routeToDataAgent st (.getHistory cid)
  let hresp := p.1
  let st := p.2
  if hresp.success then
    let ts := asTickets hresp.result
    if ts ≠ [] then
      (("Ticket History for Customer " ++ toString cid ++ ":") ::
        ts.map (fun t =>
          "  - [" ++ pyUpper t.status ++ "] " ++ t.issue ++
            " (Priority: " ++ t.priority ++ ", ID: " ++ toString t.id ++ ")"), st)
    else (["No tickets found for customer " ++ toString cid], st)
  else (["Error: " ++ hresp.error.getD ""], st)

/-- Case 4: customer needs help (lines 643-673): fetch the customer record,
then forward the query with that record as context to the Support Service. -/
def msCase4 (st : St) (q : String) (cid : Nat) : List String × St :=
  let p := routeToDataAgent st (.getCustomer cid)
  let dresp := p.1
  let st := p.2
  if dresp.success then
    let c := asCustomer dresp.result
    let p2 := routeToSupportAgent st (.handleQuery q (some c))
    let sresp := p2.1
    let st := p2.2
    if sresp.success then
      (["Hello " ++ c.name ++ "!",
        (match sresp.result with
         | some r => r.solution
         | none => "")], st)
    else (["I'm here to help. Please provide more details."], st)
  else (["Error: " ++ dresp.error.getD ""], st)

/-- `RouterAgent.handle_multi_step_query` (router_agent.py lines 420-675):
the ordered `elif` chain over the case handlers, then the newline join with
the `"Query processed."` fallback. -/
def handleMultiStepQuery (st : St) (q : String) (a : Analysis) : String × St :=
  let st := logInfo st "Handling multi-step query"
  let ql := pyLower q
  let p : List String × St :=
    if (pyIn "what is" ql || pyIn "status" ql) && pyIn "ticket" ql &&
        pyIn "priority" ql then
      msCase0 st ql
    else if pyIn "active customers" ql && pyIn "tickets" ql then
      msCase1 st
    else if pyIn "update" ql && pyIn "email" ql && cidTruthy a.customer_id then
      msCase2 st q ql (a.customer_id.getD 0)
    else if pyIn "update" ql && pyIn "phone" ql && cidTruthy a.customer_id then
      msCase2b st q (a.customer_id.getD 0)
    else if (pyIn "change" ql || pyIn "update" ql) && pyIn "email" ql &&
        cidTruthy a.customer_id then
      msCase2c st q (a.customer_id.getD 0)
    else if (pyIn "ticket" ql || pyIn "history" ql) && cidTruthy a.customer_id then
      msCase3 st (a.customer_id.getD 0)
    else if cidTruthy a.customer_id &&
        (pyIn "help" ql || pyIn "need" ql || pyIn "having" ql ||
         pyIn "here" ql || pyIn "issue" ql || pyIn "problem" ql) then
      msCase4 st q (a.customer_id.getD 0)
    else ([], st)
  if p.1 ≠ [] then (String.intercalate "\n" p.1, p.2)
  else ("Query processed.", p.2)

/-! ### The public entry point and the trace interface -/

/-- The banner line `"=" * 80` logged around each query. -/
def bannerLine : String := String.mk (List.replicate 80 '=')

/-- `RouterAgent.process_query` (router_agent.py lines 677-705): classify,
route by tier, return the synthesized string.  The banner and analysis log
lines appended by `process_query`/`analyze_query` are reproduced. -/
def processQuery (st : St) (q : String) : String × St :=
  let st := logInfo st bannerLine
  let st := logInfo st ("NEW QUERY: " ++ q)
  let st := logInfo st bannerLine
  let st := logInfo st ("Analyzing query: " ++ String.take q 80 ++ "...")
  let a := analyzeQuery q
  let st := logInfo st "Analysis complete"
  let p : String × St :=
    match a.complexity with
    | .simple => handleSimpleQuery st q a
    | .multiStep => handleMultiStepQuery st q a
    | .complex => handleComplexQuery st q a
  let st := logInfo p.2 "Query processing complete"
  let st := logInfo st bannerLine
  (p.1, st)

/-- `RouterAgent.get_coordination_log`. -/
def getCoordinationLog (st : St) : List LogEntry := st.log

/-- `RouterAgent.clear_coordination_log` (router_agent.py lines 711-713). -/
def clearCoordinationLog (st : St) : St := { st with log := [] }

/-- The dispatches recorded in a trace: its outbound `a2aSend` entries, in
order. -/
def dispatchesOf (log : List LogEntry) : List Req :=
  log.filterMap (fun e =>
    match e with
    | .a2aSend _ _ r => some r
    | _ => none)

/-- The provider a request is addressed to. -/
def reqTarget : Req → String
  | .data _ => dataAgentName
  | .support _ => supportAgentName

/-- One dispatch through the router's dispatcher, dropping the response
(used to state trace invariants over arbitrary dispatch sequences). -/
def dispatchOne (st : St) (r : Req) : St :=
  match r with
  | .data dreq => (routeToDataAgent st dreq).2
  | .support sreq => (routeToSupportAgent st sreq).2

/-- A sequence of dispatches within one query session. -/
def runDispatches (st : St) (rs : List Req) : St :=
  rs.foldl dispatchOne st

/-! ### Sample provider state used by concrete witnesses -/

/-- A sample customer row with id 5. -/
def sampleCustomer5 : Customer :=
  ⟨5, "Alice Example", "alice@example.com", "555-0100", "active", "2024-01-01", "2024-01-01"⟩

/-- A sample customer row with id 2. -/
def sampleCustomer2 : Customer :=
  ⟨2, "Bob Sample", "bob@example.com", "555-0200", "active", "2024-01-02", "2024-01-02"⟩

/-- A sample database holding the two sample customers and no tickets. -/
def sampleDB : DB := ⟨[sampleCustomer2, sampleCustomer5], []⟩

/-! ### Pure observable semantics

For the determinism/idempotence analysis the observable behaviour of each
workflow function — its returned value and the database evolution, which
are the only components the synthesized answer depends on — is restated as
a function of the query and the database alone, with the coordination log
dropped.  The refinement lemmas `..._obs` below prove that each stateful
function above projects onto its companion, i.e. that the log contents
never influence the answer or the data state. -/

/-- Observable behaviour of `case0Loop`. -/
def case0LoopData (pf : Option String) : List Customer → DB →
    List FilteredTicket × DB
  | [], db => ([], db)
  | c :: rest, db =>
    let r := dataHandleRequest db (.getHistory c.id)
    let new : List FilteredTicket :=
      if r.1.success then
        ((asTickets r.1.result).filter (priorityMatch pf)).map
          (fun t => ⟨c.name, t.issue, t.status, t.priority⟩)
      else []
    let q := case0LoopData pf rest r.2
    (new ++ q.1, q.2)

/-- Observable behaviour of `msCase0`. -/
def msCase0Data (ql : String) (db : DB) : List String × DB :=
  let pf : Option String :=
    if pyIn "high" ql && pyIn "priority" ql then some "high"
    else if pyIn "medium" ql && pyIn "priority" ql then some "medium"
    else if pyIn "low" ql && pyIn "priority" ql then some "low"
    else none
  let r := dataHandleRequest db (.getPremiumCustomers)
  if r.1.success then
    let customers := asCustomers r.1.result
    let q := case0LoopData pf (customers.take 10) r.2
    let filtered := q.1
    let priorityDesc := match pf with
      | some pr => pr ++ "-priority "
      | none => ""
    if filtered ≠ [] then
      (("Found " ++ toString filtered.length ++ " " ++ priorityDesc ++ "tickets:\n") ::
        (filtered.take 10).foldr
          (fun t acc =>
            ("  • " ++ t.customer ++ ": [" ++ pyUpper t.status ++ "] " ++ t.issue) ::
            ("    Priority: " ++ t.priority) :: acc)
          [], q.2)
    else (["No " ++ priorityDesc ++ "tickets found."], q.2)
  else (["Unable to retrieve ticket data."], r.2)

/-- Observable behaviour of `case1Loop`. -/
def case1LoopData : List Customer → DB → List CustomerWithTickets × DB
  | [], db => ([], db)
  | c :: rest, db =>
    let r := dataHandleRequest db (.getHistory c.id)
    let new : List CustomerWithTickets :=
      if r.1.success then
        let openTickets := (asTickets r.1.result).filter (fun t => t.status == "open")
        if openTickets ≠ [] then [⟨c, openTickets.length⟩] else []
      else []
    let q := case1LoopData rest r.2
    (new ++ q.1, q.2)

/-- Observable behaviour of `msCase1`. -/
def msCase1Data (db : DB) : List String × DB :=
  let r := dataHandleRequest db (.getPremiumCustomers)
  if r.1.success then
    let customers := asCustomers r.1.result
    let head := "Found " ++ toString customers.length ++ " active customers"
    let q := case1LoopData (customers.take 5) r.2
    let withTickets := q.1
    if withTickets ≠ [] then
      (head :: "\nActive customers with open tickets:" ::
        withTickets.map (fun item =>
          "- " ++ item.customer.name ++ ": " ++ toString item.open_tickets ++
            " open ticket(s)"), q.2)
    else ([head, "No active customers with open tickets found."], q.2)
  else ([], r.2)

/-- Observable behaviour of `msCase2`. -/
def msCase2Data (q ql : String) (cid : Nat) (db : DB) : List String × DB :=
  match emailSearch q.data with
  | some em =>
    let newEmail : String := ⟨em⟩
    let r := dataHandleRequest db (.updateCustomer cid { email := some newEmail })
    let first :=
      if r.1.success then
        "✓ Email updated to " ++ newEmail ++ " for customer " ++ toString cid
      else "Error updating email: " ++ r.1.error.getD "Unknown error"
    if pyIn "history" ql || pyIn "ticket" ql then
      let rh := dataHandleRequest r.2 (.getHistory cid)
      if rh.1.success then
        (first :: "\nTicket History:" ::
          (asTickets rh.1.result).map (fun t =>
            "  - [" ++ pyUpper t.status ++ "] " ++ t.issue ++
              " (Priority: " ++ t.priority ++ ")"), rh.2)
      else ([first, "No tickets found"], rh.2)
    else ([first], r.2)
  | none => (["Could not extract email address from query"], db)

/-- Observable behaviour of `msCase2b`. -/
def msCase2bData (q : String) (cid : Nat) (db : DB) : List String × DB :=
  match phoneSearch q.data with
  | some ph =>
    let newPhone : String := ⟨ph⟩
    let r := dataHandleRequest db (.updateCustomer cid { phone := some newPhone })
    if r.1.success then
      let c := asCustomer r.1.result
      (["✓ Phone updated to " ++ newPhone ++ " for customer " ++ toString cid,
        "\nUpdated Customer Information:",
        "  Name: " ++ c.name,
        "  Email: " ++ c.email,
        "  Phone: " ++ c.phone], r.2)
    else (["Error updating phone: " ++ r.1.error.getD "Unknown error"], r.2)
  | none => (["Could not extract phone number from query"], db)

/-- Observable behaviour of `msCase2c`. -/
def msCase2cData (q : String) (cid : Nat) (db : DB) : List String × DB :=
  match emailSearch q.data with
  | some em =>
    let newEmail : String := ⟨em⟩
    let r := dataHandleRequest db (.updateCustomer cid { email := some newEmail })
    if r.1.success then
      let c := asCustomer r.1.result
      (["✓ Email changed to " ++ newEmail ++ " for customer " ++ toString cid,
        "\nUpdated Customer Information:",
        "  Name: " ++ c.name,
        "  Email: " ++ c.email], r.2)
    else (["Error changing email: " ++ r.1.error.getD "Unknown error"], r.2)
  | none => (["Could not extract email address from query"], db)

/-- Observable behaviour of `msCase3`. -/
def msCase3Data (cid : Nat) (db : DB) : List String × DB :=
  let r := dataHandleRequest db (.getHistory cid)
  if r.1.success then
    let ts := asTickets r.1.result
    if ts ≠ [] then
      (("Ticket History for Customer " ++ toString cid ++ ":") ::
        ts.map (fun t =>
          "  - [" ++ pyUpper t.status ++ "] " ++ t.issue ++
            " (Priority: " ++ t.priority ++ ", ID: " ++ toString t.id ++ ")"), r.2)
    else (["No tickets found for customer " ++ toString cid], r.2)
  else (["Error: " ++ r.1.error.getD ""], r.2)

/-- Observable behaviour of `msCase4`. -/
def msCase4Data (q : String) (cid : Nat) (db : DB) : List String × DB :=
  let r := dataHandleRequest db (.getCustomer cid)
  if r.1.success then
    let c := asCustomer r.1.result
    let sresp := supportHandleRequest (.handleQuery q (some c))
    if sresp.success then
      (["Hello " ++ c.name ++ "!",
        (match sresp.result with
         | some sr => sr.solution
         | none => "")], r.2)
    else (["I'm here to help. Please provide more details."], r.2)
  else (["Error: " ++ r.1.error.getD ""], r.2)

/-- Observable behaviour of `handleMultiStepQuery`. -/
def multiStepData (q : String) (a : Analysis) (db : DB) : String × DB :=
  let ql := pyLower q
  let p : List String × DB :=
    if (pyIn "what is" ql || pyIn "status" ql) && pyIn "ticket" ql &&
        pyIn "priority" ql then
      msCase0Data ql db
    else if pyIn "active customers" ql && pyIn "tickets" ql then
      msCase1Data db
    else if pyIn "update" ql && pyIn "email" ql && cidTruthy a.customer_id then
      msCase2Data q ql (a.customer_id.getD 0) db
    else if pyIn "update" ql && pyIn "phone" ql && cidTruthy a.customer_id then
      msCase2bData q (a.customer_id.getD 0) db
    else if (pyIn "change" ql || pyIn "update" ql) && pyIn "email" ql &&
        cidTruthy a.customer_id then
      msCase2cData q (a.customer_id.getD 0) db
    else if (pyIn "ticket" ql || pyIn "history" ql) && cidTruthy a.customer_id then
      msCase3Data (a.customer_id.getD 0) db
    else if cidTruthy a.customer_id &&
        (pyIn "help" ql || pyIn "need" ql || pyIn "having" ql ||
         pyIn "here" ql || pyIn "issue" ql || pyIn "problem" ql) then
      msCase4Data q (a.customer_id.getD 0) db
    else ([], db)
  if p.1 ≠ [] then (String.intercalate "\n" p.1, p.2)
  else ("Query processed.", p.2)

/-- Observable behaviour of `negotiateBetweenAgents`. -/
def negotiateData (q : String) (a : Analysis) (db : DB) : Coordinated × DB :=
  if a.needs_support_agent then
    let sresp := supportHandleRequest (.handleQuery q none)
    let needsCtx :=
      sresp.success &&
        (match sresp.result with
         | some r => r.needs_customer_context
         | none => false)
    if needsCtx then
      if cidTruthy a.customer_id then
        let cid := a.customer_id.getD 0
        let r := dataHandleRequest db (.getCustomer cid)
        if r.1.success then
          let cd : Option Customer :=
            match r.1.result with
            | some (.customer c) => some c
            | _ => none
          ({ support := some sresp, data := some r.1,
             support_with_context := some (supportHandleRequest (.handleQuery q cd)) }, r.2)
        else ({ support := some sresp, data := some r.1 }, r.2)
      else ({ support := some sresp }, db)
    else ({ support := some sresp }, db)
  else ({}, db)

/-- Observable behaviour of `handleSimpleQuery`. -/
def simpleData (q : String) (a : Analysis) (db : DB) : String × DB :=
  let ql := pyLower q
  if cidTruthy a.customer_id && (pyIn "what is" ql || pyIn "what's" ql) &&
      ["name", "email", "phone", "status", "information", "info"].any
        (fun f => pyIn f ql) then
    let cid := a.customer_id.getD 0
    let r := dataHandleRequest db (.getCustomer cid)
    if r.1.success then
      let c := asCustomer r.1.result
      if pyIn "name" ql && !pyIn "email" ql then
        ("The name of customer " ++ toString cid ++ " is " ++ c.name ++ ".", r.2)
      else if pyIn "email" ql then
        ("The email of customer " ++ toString cid ++ " is " ++ c.email ++ ".", r.2)
      else if pyIn "phone" ql then
        ("The phone of customer " ++ toString cid ++ " is " ++ c.phone ++ ".", r.2)
      else if pyIn "status" ql then
        ("Customer " ++ toString cid ++ " status is " ++ c.status ++ ".", r.2)
      else (customerInfoText c, r.2)
    else ("Error: " ++ r.1.error.getD "", r.2)
  else if ["get customer", "show me customer", "customer information"].any
      (fun ph => pyIn ph ql) && cidTruthy a.customer_id then
    let cid := a.customer_id.getD 0
    let r := dataHandleRequest db (.getCustomer cid)
    if r.1.success then (customerInfoText (asCustomer r.1.result), r.2)
    else ("Error: " ++ r.1.error.getD "", r.2)
  else if (pyIn "history" ql || pyIn "tickets" ql) && cidTruthy a.customer_id then
    let cid := a.customer_id.getD 0
    let r := dataHandleRequest db (.getHistory cid)
    if r.1.success then
      let ts := asTickets r.1.result
      if ts ≠ [] then (historyText cid ts, r.2)
      else ("No tickets found for customer " ++ toString cid, r.2)
    else ("Error: " ++ r.1.error.getD "", r.2)
  else
    let resp := supportHandleRequest (.handleQuery q none)
    if resp.success then (supportSolution resp.result, db)
    else ("Error: " ++ resp.error.getD "", db)

/-- Observable behaviour of `handleComplexQuery`. -/
def complexData (q : String) (a : Analysis) (db : DB) : String × DB :=
  let ql := pyLower q
  if (pyIn "ticket" ql || pyIn "history" ql) && cidTruthy a.customer_id then
    let cid := a.customer_id.getD 0
    let r := dataHandleRequest db (.getHistory cid)
    if r.1.success then
      let ts := asTickets r.1.result
      if ts ≠ [] then (historyText cid ts, r.2)
      else ("No tickets found for customer " ++ toString cid, r.2)
    else ("Error: " ++ r.1.error.getD "", r.2)
  else if pyIn "list" ql && pyIn "customer" ql then
    let status : Option String :=
      if pyIn "active" ql then some "active"
      else if pyIn "disabled" ql then some "disabled"
      else none
    let r := dataHandleRequest db (.listCustomers status 10)
    if r.1.success then
      let cs := asCustomers r.1.result
      if cs ≠ [] then
        (pyStrip (cs.foldl
          (fun acc c =>
            acc ++ "  • " ++ c.name ++ " (ID: " ++ toString c.id ++
              ", Status: " ++ c.status ++ ")\n")
          ("Customer List (" ++ toString cs.length ++ " customers):\n")), r.2)
      else ("No customers found", r.2)
    else ("Error: " ++ r.1.error.getD "", r.2)
  else if pyIn "show" ql && pyIn "customer" ql && cidTruthy a.customer_id then
    let cid := a.customer_id.getD 0
    let r := dataHandleRequest db (.getCustomer cid)
    if r.1.success then (customerInfoText (asCustomer r.1.result), r.2)
    else ("Error: " ++ r.1.error.getD "", r.2)
  else
    let pc := negotiateData q a db
    let co := pc.1
    let parts : List String :=
      (match co.data with
       | some d =>
         if d.success then
           ["Customer: " ++ (asCustomer d.result).name ++ " (" ++
             (asCustomer d.result).status ++ ")"]
         else []
       | none => []) ++
      (match co.support_with_context with
       | some swc => [(match swc.result with | some r => r.solution | none => "")]
       | none =>
         match co.support with
         | some sresp => [(match sresp.result with | some r => r.solution | none => "")]
         | none => [])
    if parts ≠ [] then (String.intercalate "\n" parts, pc.2)
    else ("I'm working on your request.", pc.2)

/-- Observable behaviour of `processQuery`: the synthesized answer and the
resulting database are functions of the query and the incoming database
alone. -/
def processData (q : String) (db : DB) : String × DB :=
  let a := analyzeQuery q
  match a.complexity with
  | .simple => simpleData q a db
  | .multiStep => multiStepData q a db
  | .complex => complexData q a db

/-! ## Helper lemmas -/

/-- Closed form of one Data Service dispatch from an explicit state. -/
theorem route_data_closed (db : DB) (l : List LogEntry) (r : DataReq) :
    routeToDataAgent ⟨db, l⟩ r =
      ((dataHandleRequest db r).1,
       ⟨(dataHandleRequest db r).2,
        l ++ [.a2aSend routerName dataAgentName (.data r),
              .a2aRecv dataAgentName routerName (dataHandleRequest db r).1.success]⟩) := by
  simp [routeToDataAgent, pushLog]

/-- Closed form of one Support Service dispatch from an explicit state. -/
theorem route_support_closed (db : DB) (l : List LogEntry) (r : SupportReq) :
    routeToSupportAgent ⟨db, l⟩ r =
      (supportHandleRequest r,
       ⟨db, l ++ [.a2aSend routerName supportAgentName (.support r),
                  .a2aRecv supportAgentName routerName (supportHandleRequest r).success]⟩) := by
  simp [routeToSupportAgent, pushLog]

/-- A successful `get_customer` dispatch: response and state change. -/
theorem routeToData_getCustomer (st : St) (cid : Nat) (c : Customer)
    (h : dbGetCustomer st.db cid = some c) :
    routeToDataAgent st (.getCustomer cid) =
      ({ success := true, result := some (.customer c) },
       ⟨st.db, st.log ++ [.a2aSend routerName dataAgentName (.data (.getCustomer cid)),
                          .a2aRecv dataAgentName routerName true]⟩) := by
  simp [routeToDataAgent, pushLog, dataHandleRequest, h]

/-- Each dispatch appends exactly an outbound entry followed by an inbound
entry to the coordination log. -/
theorem dispatchOne_log (st : St) (r : Req) :
    ∃ ok, (dispatchOne st r).log =
      st.log ++ [LogEntry.a2aSend routerName (reqTarget r) r,
                 LogEntry.a2aRecv (reqTarget r) routerName ok] := by
  cases r with
  | data dreq =>
    exact ⟨(dataHandleRequest st.db dreq).1.success,
      by simp [dispatchOne, routeToDataAgent, pushLog, reqTarget]⟩
  | support sreq =>
    exact ⟨(supportHandleRequest sreq).success,
      by simp [dispatchOne, routeToSupportAgent, pushLog, reqTarget]⟩

/-- A dispatch sequence grows the log by exactly two entries per dispatch
and preserves the existing entries in front. -/
theorem runDispatches_log (st : St) (rs : List Req) :
    st.log.length + 2 * rs.length ≤ (runDispatches st rs).log.length ∧
    ∃ d, (runDispatches st rs).log = st.log ++ d := by
  induction rs generalizing st with
  | nil => exact ⟨by simp [runDispatches], [], by simp [runDispatches]⟩
  | cons r rs ih =>
    obtain ⟨ok, hok⟩ := dispatchOne_log st r
    have hstep : runDispatches st (r :: rs) = runDispatches (dispatchOne st r) rs := rfl
    obtain ⟨hlen, d, hd⟩ := ih (dispatchOne st r)
    constructor
    · rw [hstep]
      calc st.log.length + 2 * (r :: rs).length
          = (dispatchOne st r).log.length + 2 * rs.length := by
            rw [hok]; simp [List.length_append]; ring
        _ ≤ _ := hlen
    · exact ⟨_, by rw [hstep, hd, hok, List.append_assoc]⟩

theorem case0Loop_obs (pf : Option String) (cs : List Customer) :
    ∀ (db : DB) (l : List LogEntry),
      (case0Loop pf cs ⟨db, l⟩).1 = (case0LoopData pf cs db).1 ∧
      (case0Loop pf cs ⟨db, l⟩).2.db = (case0LoopData pf cs db).2 := by
  induction cs with
  | nil => intro db l; exact ⟨rfl, rfl⟩
  | cons c rest ih =>
    intro db l
    simp only [case0Loop, case0LoopData, route_data_closed]
    exact ⟨by rw [(ih _ _).1], (ih _ _).2⟩

theorem case1Loop_obs (cs : List Customer) :
    ∀ (db : DB) (l : List LogEntry),
      (case1Loop cs ⟨db, l⟩).1 = (case1LoopData cs db).1 ∧
      (case1Loop cs ⟨db, l⟩).2.db = (case1LoopData cs db).2 := by
  induction cs with
  | nil => intro db l; exact ⟨rfl, rfl⟩
  | cons c rest ih =>
    intro db l
    simp only [case1Loop, case1LoopData, route_data_closed]
    exact ⟨by rw [(ih _ _).1], (ih _ _).2⟩

theorem msCase0_obs (ql : String) (db : DB) (l : List LogEntry) :
    (msCase0 ⟨db, l⟩ ql).1 = (msCase0Data ql db).1 ∧
    (msCase0 ⟨db, l⟩ ql).2.db = (msCase0Data ql db).2 := by
  constructor
  · simp only [msCase0, msCase0Data, logInfo, pushLog, route_data_closed]
    rw [(case0Loop_obs _ _ _ _).1]
    split_ifs <;> rfl
  · simp only [msCase0, msCase0Data, logInfo, pushLog, route_data_closed]
    rw [(case0Loop_obs _ _ _ _).1]
    split_ifs <;> first | rfl | exact (case0Loop_obs _ _ _ _).2

theorem msCase1_obs (db : DB) (l : List LogEntry) :
    (msCase1 ⟨db, l⟩).1 = (msCase1Data db).1 ∧
    (msCase1 ⟨db, l⟩).2.db = (msCase1Data db).2 := by
  constructor
  · simp only [msCase1, msCase1Data, logInfo, pushLog, route_data_closed]
    rw [(case1Loop_obs _ _ _).1]
    split_ifs <;> rfl
  · simp only [msCase1, msCase1Data, logInfo, pushLog, route_data_closed]
    rw [(case1Loop_obs _ _ _).1]
    split_ifs <;> first | rfl | exact (case1Loop_obs _ _ _).2

theorem msCase2_obs (q ql : String) (cid : Nat) (db : DB) (l : List LogEntry) :
    (msCase2 ⟨db, l⟩ q ql cid).1 = (msCase2Data q ql cid db).1 ∧
    (msCase2 ⟨db, l⟩ q ql cid).2.db = (msCase2Data q ql cid db).2 := by
  simp only [msCase2, msCase2Data, logInfo, pushLog, route_data_closed]
  rcases hE : emailSearch q.data with - | em <;>
    simp only [hE] <;>
    exact ⟨by first | trivial | (split_ifs <;> rfl),
           by first | trivial | (split_ifs <;> rfl)⟩

theorem msCase2b_obs (q : String) (cid : Nat) (db : DB) (l : List LogEntry) :
    (msCase2b ⟨db, l⟩ q cid).1 = (msCase2bData q cid db).1 ∧
    (msCase2b ⟨db, l⟩ q cid).2.db = (msCase2bData q cid db).2 := by
  simp only [msCase2b, msCase2bData, logInfo, pushLog, route_data_closed]
  rcases hP : phoneSearch q.data with - | ph <;>
    simp only [hP] <;>
    exact ⟨by first | trivial | (split_ifs <;> rfl),
           by first | trivial | (split_ifs <;> rfl)⟩

theorem msCase2c_obs (q : String) (cid : Nat) (db : DB) (l : List LogEntry) :
    (msCase2c ⟨db, l⟩ q cid).1 = (msCase2cData q cid db).1 ∧
    (msCase2c ⟨db, l⟩ q cid).2.db = (msCase2cData q cid db).2 := by
  simp only [msCase2c, msCase2cData, logInfo, pushLog, route_data_closed]
  rcases hE : emailSearch q.data with - | em <;>
    simp only [hE] <;>
    exact ⟨by first | trivial | (split_ifs <;> rfl),
           by first | trivial | (split_ifs <;> rfl)⟩

theorem msCase3_obs (cid : Nat) (db : DB) (l : List LogEntry) :
    (msCase3 ⟨db, l⟩ cid).1 = (msCase3Data cid db).1 ∧
    (msCase3 ⟨db, l⟩ cid).2.db = (msCase3Data cid db).2 := by
  simp only [msCase3, msCase3Data, logInfo, pushLog, route_data_closed]
  exact ⟨by split_ifs <;> rfl, by split_ifs <;> rfl⟩

theorem msCase4_obs (q : String) (cid : Nat) (db : DB) (l : List LogEntry) :
    (msCase4 ⟨db, l⟩ q cid).1 = (msCase4Data q cid db).1 ∧
    (msCase4 ⟨db, l⟩ q cid).2.db = (msCase4Data q cid db).2 := by
  simp only [msCase4, msCase4Data, logInfo, pushLog, route_data_closed,
    route_support_closed]
  exact ⟨by split_ifs <;> rfl, by split_ifs <;> rfl⟩

theorem join_obs {p : List String × St} {pd : List String × DB}
    (h1 : p.1 = pd.1) (h2 : p.2.db = pd.2) :
    ((if p.1 ≠ [] then (String.intercalate "\n" p.1, p.2)
      else ("Query processed.", p.2)).1
        = (if pd.1 ≠ [] then (String.intercalate "\n" pd.1, pd.2)
           else ("Query processed.", pd.2)).1) ∧
    ((if p.1 ≠ [] then (String.intercalate "\n" p.1, p.2)
      else ("Query processed.", p.2)).2.db
        = (if pd.1 ≠ [] then (String.intercalate "\n" pd.1, pd.2)
           else ("Query processed.", pd.2)).2) := by
  rw [h1]
  split_ifs <;> exact ⟨rfl, h2⟩

set_option maxHeartbeats 1600000 in
theorem multiStep_obs (q : String) (a : Analysis) (db : DB) (l : List LogEntry) :
    (handleMultiStepQuery ⟨db, l⟩ q a).1 = (multiStepData q a db).1 ∧
    (handleMultiStepQuery ⟨db, l⟩ q a).2.db = (multiStepData q a db).2 := by
  simp only [handleMultiStepQuery, multiStepData, logInfo, pushLog]
  exact join_obs
    (by split_ifs <;>
      first
        | rfl
        | exact (msCase0_obs _ _ _).1
        | exact (msCase1_obs _ _).1
        | exact (msCase2_obs _ _ _ _ _).1
        | exact (msCase2b_obs _ _ _ _).1
        | exact (msCase2c_obs _ _ _ _).1
        | exact (msCase3_obs _ _ _).1
        | exact (msCase4_obs _ _ _ _).1)
    (by split_ifs <;>
      first
        | rfl
        | exact (msCase0_obs _ _ _).2
        | exact (msCase1_obs _ _).2
        | exact (msCase2_obs _ _ _ _ _).2
        | exact (msCase2b_obs _ _ _ _).2
        | exact (msCase2c_obs _ _ _ _).2
        | exact (msCase3_obs _ _ _).2
        | exact (msCase4_obs _ _ _ _).2)

theorem negotiate_obs (q : String) (a : Analysis) (db : DB) (l : List LogEntry) :
    (negotiateBetweenAgents ⟨db, l⟩ q a).1 = (negotiateData q a db).1 ∧
    (negotiateBetweenAgents ⟨db, l⟩ q a).2.db = (negotiateData q a db).2 := by
  simp only [negotiateBetweenAgents, negotiateData, logInfo, pushLog,
    route_support_closed, route_data_closed]
  exact ⟨by split_ifs <;> rfl, by split_ifs <;> rfl⟩

theorem simple_obs (q : String) (a : Analysis) (db : DB) (l : List LogEntry) :
    (handleSimpleQuery ⟨db, l⟩ q a).1 = (simpleData q a db).1 ∧
    (handleSimpleQuery ⟨db, l⟩ q a).2.db = (simpleData q a db).2 := by
  simp only [handleSimpleQuery, simpleData, logInfo, pushLog,
    route_data_closed, route_support_closed]
  exact ⟨by split_ifs <;> rfl, by split_ifs <;> rfl⟩

set_option maxHeartbeats 1600000 in
theorem complex_obs (q : String) (a : Analysis) (db : DB) (l : List LogEntry) :
    (handleComplexQuery ⟨db, l⟩ q a).1 = (complexData q a db).1 ∧
    (handleComplexQuery ⟨db, l⟩ q a).2.db = (complexData q a db).2 := by
  constructor
  · simp only [handleComplexQuery, complexData, logInfo, pushLog, route_data_closed]
    rw [(negotiate_obs _ _ _ _).1]
    split_ifs <;> rfl
  · simp only [handleComplexQuery, complexData, logInfo, pushLog, route_data_closed]
    rw [(negotiate_obs _ _ _ _).1]
    split_ifs <;> first | rfl | exact (negotiate_obs _ _ _ _).2

set_option maxHeartbeats 1600000 in
theorem processQuery_obs (q : String) (db : DB) (l : List LogEntry) :
    (processQuery ⟨db, l⟩ q).1 = (processData q db).1 ∧
    (processQuery ⟨db, l⟩ q).2.db = (processData q db).2 := by
  simp only [processQuery, processData, logInfo, pushLog]
  rcases hc : (analyzeQuery q).complexity <;> simp only [hc]
  · exact ⟨(simple_obs _ _ _ _).1, (simple_obs _ _ _ _).2⟩
  · exact ⟨(complex_obs _ _ _ _).1, (complex_obs _ _ _ _).2⟩
  · exact ⟨(multiStep_obs _ _ _ _).1, (multiStep_obs _ _ _ _).2⟩

theorem dropLit_self (xs r : List Char) : dropLit xs (xs ++ r) = some r := by
  induction xs with
  | nil => rfl
  | cons a as ih => simp [dropLit, ih]

theorem dropLit_eq_some {xs : List Char} :
    ∀ {ys r : List Char}, dropLit xs ys = some r → ys = xs ++ r := by
  induction xs with
  | nil => intro ys r h; simp [dropLit] at h; simp [h]
  | cons a as ih =>
    intro ys r h
    cases ys with
    | nil => simp [dropLit] at h
    | cons b bs =>
      simp only [dropLit] at h
      split_ifs at h with hb
      subst hb; simp [ih h]

theorem dropWhile_all_append {p : Char → Bool} :
    ∀ {u v : List Char}, (∀ c ∈ u, p c = true) →
      (match v with | [] => True | c :: _ => p c = false) →
      (u ++ v).dropWhile p = v := by
  intro u
  induction u with
  | nil =>
    intro v _ hv
    cases v with
    | nil => rfl
    | cons c cs => simp [List.dropWhile, hv]
  | cons a as ih =>
    intro v hu hv
    simp only [List.cons_append, List.dropWhile, hu a (by simp)]
    exact ih (fun c hc => hu c (by simp [hc])) hv

theorem takeWhile_all_append {p : Char → Bool} :
    ∀ {u v : List Char}, (∀ c ∈ u, p c = true) →
      (match v with | [] => True | c :: _ => p c = false) →
      (u ++ v).takeWhile p = u := by
  intro u
  induction u with
  | nil =>
    intro v _ hv
    cases v with
    | nil => rfl
    | cons c cs => simp [List.takeWhile, hv]
  | cons a as ih =>
    intro v hu hv
    simp only [List.cons_append, List.takeWhile, hu a (by simp)]
    exact congrArg _ (ih (fun c hc => hu c (by simp [hc])) hv)

theorem digit_not_space {c : Char} (h : isDigitCh c = true) : isPySpace c = false := by
  cases hsp : isPySpace c with
  | false => rfl
  | true =>
    exfalso
    simp only [isPySpace, Bool.or_eq_true, decide_eq_true_eq] at hsp
    rcases hsp with ((((h1 | h1) | h1) | h1) | h1) | h1 <;> (subst h1; revert h; decide)

theorem space_not_digit {c : Char} (h : isPySpace c = true) : isDigitCh c = false := by
  cases hd : isDigitCh c with
  | false => rfl
  | true => rw [digit_not_space hd] at h; exact absurd h (by simp)

theorem takeWhile_ne_nil_head {p : Char → Bool} {l : List Char}
    (h : l.takeWhile p ≠ []) : ∃ c l', l = c :: l' ∧ p c = true := by
  cases l with
  | nil => simp at h
  | cons c cs =>
    cases hp : p c with
    | false => simp [List.takeWhile, hp] at h
    | true => exact ⟨c, cs, rfl, hp⟩

theorem suffix_digit_block {ds B : List Char}
    (hB : ∀ c ∈ B, isDigitCh c = false)
    (hds : ∀ c ∈ ds, isDigitCh c = true) :
    ∀ {A : List Char}, (∀ c ∈ A, isDigitCh c = false) →
      ∀ {u : List Char}, u <:+ A ++ ds ++ B →
        (∃ d u', u = d :: u' ∧ isDigitCh d = true) →
        ∃ k, k < ds.length ∧ u = ds.drop k ++ B := by
  have base : ∀ (es : List Char), (∀ c ∈ es, isDigitCh c = true) →
      ∀ {u : List Char}, u <:+ es ++ B →
        (∃ d u', u = d :: u' ∧ isDigitCh d = true) →
        ∃ k, k < es.length ∧ u = es.drop k ++ B := by
    intro es
    induction es with
    | nil =>
      intro _ u hu ⟨d, u', hdu, hd⟩
      exfalso
      have : d ∈ B := hu.subset (by simp [hdu])
      rw [hB d this] at hd; exact absurd hd (by simp)
    | cons e es ih =>
      intro hall u hu hhead
      rw [List.cons_append, List.suffix_cons_iff] at hu
      rcases hu with hu | hu
      · exact ⟨0, by simp, by simpa using hu⟩
      · obtain ⟨k, hk, hke⟩ := ih (fun c hc => hall c (by simp [hc])) hu hhead
        exact ⟨k + 1, by simpa using hk, by simpa using hke⟩
  intro A
  induction A with
  | nil =>
    intro _ u hu hhead
    exact base ds hds (by simpa using hu) hhead
  | cons a A ih =>
    intro hA u hu hhead
    rw [List.cons_append, List.cons_append, List.suffix_cons_iff] at hu
    rcases hu with hu | hu
    · exfalso
      obtain ⟨d, u', hdu, hd⟩ := hhead
      rw [hdu] at hu
      injection hu with ha hb
      rw [ha] at hd
      rw [hA a (by simp)] at hd; exact absurd hd (by simp)
    · exact ih (fun c hc => hA c (by simp [hc])) hu hhead

theorem matchP3At_at {ws ds post : List Char}
    (hws : ws ≠ []) (hwsAll : ∀ c ∈ ws, isPySpace c = true)
    (hds : ds ≠ []) (hdsAll : ∀ c ∈ ds, isDigitCh c = true)
    (hpost : ∀ c ∈ post, isDigitCh c = false) :
    matchP3At ("customer".data ++ ws ++ ds ++ post) = some (digitsVal ds) := by
  obtain ⟨w, ws', rfl⟩ : ∃ w ws', ws = w :: ws' := by
    cases ws with
    | nil => exact absurd rfl hws
    | cons w ws' => exact ⟨w, ws', rfl⟩
  obtain ⟨d, ds', rfl⟩ : ∃ d ds', ds = d :: ds' := by
    cases ds with
    | nil => exact absurd rfl hds
    | cons d ds' => exact ⟨d, ds', rfl⟩
  have hw : isPySpace w = true := hwsAll w (by simp)
  have hd : isDigitCh d = true := hdsAll d (by simp)
  have harr : "customer".data ++ (w :: ws') ++ (d :: ds') ++ post =
      "customer".data ++ (w :: (ws' ++ (d :: ds') ++ post)) := by simp
  rw [harr]
  simp only [matchP3At, dropLit_self, Option.bind_eq_bind, Option.some_bind, ws1, hw,
    if_true]
  have hdrop : (ws' ++ (d :: ds') ++ post).dropWhile isPySpace = (d :: ds') ++ post := by
    rw [List.append_assoc]
    exact dropWhile_all_append (fun c hc => hwsAll c (by simp [hc]))
      (by simp [digit_not_space hd])
  rw [hdrop]
  have htake : ((d :: ds') ++ post).takeWhile isDigitCh = d :: ds' := by
    refine takeWhile_all_append hdsAll ?_
    cases post with
    | nil => trivial
    | cons b bs => exact hpost b (by simp)
  simp only [digitsRun, htake]

theorem matchP3At_sound {t : List Char} {v : Nat} (h : matchP3At t = some v) :
    ∃ w rest, t = "customer".data ++ w :: rest ∧ isPySpace w = true ∧
      (rest.dropWhile isPySpace).takeWhile isDigitCh ≠ [] ∧
      v = digitsVal ((rest.dropWhile isPySpace).takeWhile isDigitCh) := by
  cases hd : dropLit "customer".data t with
  | none => simp [matchP3At, hd] at h
  | some r1 =>
    cases r1 with
    | nil => simp [matchP3At, hd, ws1] at h
    | cons w rest =>
      cases hw : isPySpace w with
      | false => simp [matchP3At, hd, ws1, hw] at h
      | true =>
        refine ⟨w, rest, dropLit_eq_some hd, hw, ?_⟩
        simp only [matchP3At, hd, ws1, hw, if_true, Option.bind_eq_bind,
          Option.some_bind, digitsRun] at h
        cases htw : (rest.dropWhile isPySpace).takeWhile isDigitCh with
        | nil => rw [htw] at h; simp at h
        | cons e es =>
          rw [htw] at h
          simp only [Option.some.injEq] at h
          exact ⟨by simp [htw], h.symm⟩

theorem matchP3At_uniq {pre ws ds post : List Char}
    (hpre : ∀ c ∈ pre, isDigitCh c = false)
    (hwsAll : ∀ c ∈ ws, isPySpace c = true)
    (hds : ds ≠ []) (hdsAll : ∀ c ∈ ds, isDigitCh c = true)
    (hpost : ∀ c ∈ post, isDigitCh c = false)
    {t : List Char} (ht : t <:+ pre ++ "customer".data ++ ws ++ ds ++ post)
    {v : Nat} (h : matchP3At t = some v) : v = digitsVal ds := by
  obtain ⟨w, rest, htEq, hw, htw, hveq⟩ := matchP3At_sound h
  obtain ⟨d, u', hu, hd⟩ := takeWhile_ne_nil_head htw
  -- the digit run scanned by the pattern is a suffix of the whole string
  have hrest_t : rest <:+ t := by
    rw [htEq, show "customer".data ++ w :: rest = ("customer".data ++ [w]) ++ rest by simp]
    exact List.suffix_append _ _
  have hu_cs : rest.dropWhile isPySpace <:+ pre ++ "customer".data ++ ws ++ ds ++ post :=
    ((List.dropWhile_suffix isPySpace).trans hrest_t).trans ht
  have hcust : ∀ c ∈ "customer".data, isDigitCh c = false := by decide
  have hA : ∀ c ∈ pre ++ "customer".data ++ ws, isDigitCh c = false := by
    intro c hc
    rcases List.mem_append.1 hc with hc | hc
    · rcases List.mem_append.1 hc with hc | hc
      · exact hpre c hc
      · exact hcust c hc
    · exact space_not_digit (hwsAll c hc)
  obtain ⟨k, hk, hueq⟩ :=
    suffix_digit_block hpost hdsAll hA
      (by rw [show (pre ++ "customer".data ++ ws) ++ ds ++ post =
            pre ++ "customer".data ++ ws ++ ds ++ post by simp]
          exact hu_cs)
      ⟨d, u', hu, hd⟩
  rcases Nat.eq_zero_or_pos k with hk0 | hkpos
  · subst hk0
    rw [List.drop_zero] at hueq
    have htake : (rest.dropWhile isPySpace).takeWhile isDigitCh = ds := by
      rw [hueq]
      refine takeWhile_all_append hdsAll ?_
      cases post with
      | nil => trivial
      | cons b bs => exact hpost b (by simp)
    rw [hveq, htake]
  · exfalso
    obtain ⟨s, hs⟩ := ht
    -- rebuild the full string from the match decomposition
    have hrest : rest.takeWhile isPySpace ++ rest.dropWhile isPySpace = rest :=
      List.takeWhile_append_dropWhile isPySpace rest
    have hds_split : ds.take k ++ ds.drop k = ds := List.take_append_drop k ds
    have hX : (s ++ "customer".data ++ [w] ++ rest.takeWhile isPySpace) ++
        (ds.drop k ++ post) =
        (pre ++ "customer".data ++ ws ++ ds.take k) ++ (ds.drop k ++ post) := by
      have lhs : (s ++ "customer".data ++ [w] ++ rest.takeWhile isPySpace) ++
          (ds.drop k ++ post) = s ++ t := by
        rw [htEq, ← hueq]
        rw [← hrest]
        simp
      have rhs : (pre ++ "customer".data ++ ws ++ ds.take k) ++ (ds.drop k ++ post) =
          pre ++ "customer".data ++ ws ++ ds ++ post := by
        simp only [List.append_assoc]
        rw [show ds.take k ++ (ds.drop k ++ post) = ds ++ post from by
          rw [← List.append_assoc, hds_split]]
      rw [lhs, rhs, hs]
    have hXY := List.append_cancel_right hX
    -- compare the last characters: a digit on the right, never a digit on the left
    have htk_ne : ds.take k ≠ [] := by
      rw [Ne, List.take_eq_nil_iff]
      rintro (rfl | rfl)
      · exact absurd rfl (Nat.pos_iff_ne_zero.1 hkpos)
      · exact hds rfl
    have hlast_r : ∃ e, (pre ++ "customer".data ++ ws ++ ds.take k).getLast? = some e ∧
        isDigitCh e = true := by
      refine ⟨(ds.take k).getLast htk_ne, ?_, ?_⟩
      · rw [List.getLast?_append, List.getLast?_eq_getLast_of_ne_nil htk_ne]
        rfl
      · exact hdsAll _ (List.take_subset k ds (List.getLast_mem htk_ne))
    have hlast_l : ∃ e, (s ++ "customer".data ++ [w] ++ rest.takeWhile isPySpace).getLast? =
        some e ∧ isPySpace e = true := by
      cases hsp : rest.takeWhile isPySpace with
      | nil =>
        refine ⟨w, ?_, hw⟩
        rw [List.append_nil, List.getLast?_append]
        rfl
      | cons y ys =>
        refine ⟨(y :: ys).getLast (by simp), ?_, ?_⟩
        · rw [List.getLast?_append,
            List.getLast?_eq_getLast_of_ne_nil (by simp : y :: ys ≠ [])]
          rfl
        · have hmem : (y :: ys).getLast (by simp) ∈ rest.takeWhile isPySpace := by
            rw [hsp]; exact List.getLast_mem _
          exact List.mem_takeWhile_imp hmem
    obtain ⟨e, he, hde⟩ := hlast_r
    obtain ⟨f, hf, hsf⟩ := hlast_l
    rw [hXY, he] at hf
    injection hf with hef
    rw [← hef] at hsf
    rw [digit_not_space hde] at hsf
    exact absurd hsf (by simp)

theorem reSearch_eq_some {m : List Char → Option Nat} {N : Nat} :
    ∀ {cs : List Char},
      (∀ t, t <:+ cs → ∀ v, m t = some v → v = N) →
      (∃ t, t <:+ cs ∧ m t = some N) →
      reSearch m cs = some N := by
  intro cs
  induction cs with
  | nil =>
    rintro _ ⟨t, ht, hm⟩
    rw [List.suffix_nil] at ht
    subst ht
    simpa [reSearch] using hm
  | cons c cs ih =>
    rintro huniq ⟨t, ht, hm⟩
    simp only [reSearch]
    cases hme : m (c :: cs) with
    | some v => rw [huniq _ (List.suffix_refl _) v hme]
    | none =>
      refine ih (fun t' ht' v hv => huniq t' (ht'.trans (List.suffix_cons c cs)) v hv) ?_
      rcases List.suffix_cons_iff.1 ht with rfl | ht'
      · rw [hme] at hm; exact absurd hm (by simp)
      · exact ⟨t, ht', hm⟩

theorem extract_id_customer_pattern (q : String) (N : Nat) (pre ws ds post : List Char)
    (hdec : (pyLower q).data = pre ++ "customer".data ++ ws ++ ds ++ post)
    (hws0 : ws ≠ []) (hws : ∀ c ∈ ws, isPySpace c = true)
    (hds0 : ds ≠ []) (hds : ∀ c ∈ ds, isDigitCh c = true)
    (hN : digitsVal ds = N)
    (hpre : ∀ c ∈ pre, isDigitCh c = false)
    (hpost : ∀ c ∈ post, isDigitCh c = false)
    (h1 : reSearch matchP1At (pyLower q).data = none)
    (h2 : reSearch matchP2At (pyLower q).data = none) :
    extract_customer_id q = some N := by
  have hr3 : reSearch matchP3At ((pyLower q).data) = some N := by
    rw [hdec]
    refine reSearch_eq_some (fun t ht v hv => ?_) ?_
    · rw [matchP3At_uniq hpre hws hds0 hds hpost ht hv, hN]
    · refine ⟨"customer".data ++ ws ++ ds ++ post, ?_, ?_⟩
      · rw [show pre ++ "customer".data ++ ws ++ ds ++ post =
            pre ++ ("customer".data ++ ws ++ ds ++ post) by simp]
        exact List.suffix_append _ _
      · rw [matchP3At_at hws0 hws hds0 hds hpost, hN]
  simp only [extract_customer_id, h1, h2, hr3]

/-- Splitting a string append into character lists. -/
theorem strData_append (a b : String) : (a ++ b).data = a.data ++ b.data := by
  cases a; cases b; rfl

/-- Claim C1 (counterexample to the claim as stated): on the unmatched query
`"xyzzy"` the orchestrator does not issue zero dispatches — the simple
strategy's fallback forwards the query to the Support Service, so the
dispatch list of the session trace is non-empty. -/
theorem c1_counterexample :
    dispatchesOf (processQuery ⟨⟨[], []⟩, []⟩ "xyzzy").2.log ≠ [] := by decide

/-- Claim C1 (amended): for every provider state, processing the unmatched
query `"xyzzy"` returns a non-empty generic acknowledgement and issues
exactly one dispatch, the Support Service fallback `handle_query` carrying
the raw query and no customer context; no Data Service dispatch is issued. -/
theorem c1_amended_unmatched_query (db : DB) :
    (processQuery ⟨db, []⟩ "xyzzy").1 =
      "I'm here to help. Could you provide more details about your issue?" ∧
    (processQuery ⟨db, []⟩ "xyzzy").1 ≠ "" ∧
    dispatchesOf (processQuery ⟨db, []⟩ "xyzzy").2.log =
      [Req.support (.handleQuery "xyzzy" none)] := by
  refine ⟨rfl, ?_, rfl⟩
  rw [show (processQuery ⟨db, []⟩ "xyzzy").1 =
    "I'm here to help. Could you provide more details about your issue?" from rfl]
  decide

/-- Claim C2: every query whose lowercase form contains both
`"active customers"` and `"tickets"` is classified multi-step (never
complex), regardless of the other keywords present. -/
theorem c2_active_customers_tickets_tier (q : String)
    (h1 : pyIn "active customers" (pyLower q) = true)
    (h2 : pyIn "tickets" (pyLower q) = true) :
    (analyzeQuery q).complexity = Complexity.multiStep := by
  simp only [analyzeQuery, h1, h2]
  split_ifs <;> simp_all

/-- Witness for claim C2 at a concrete query. -/
theorem c2_witness :
    (pyIn "active customers" (pyLower "show me all active customers with open tickets") = true ∧
     pyIn "tickets" (pyLower "show me all active customers with open tickets") = true) ∧
    (analyzeQuery "show me all active customers with open tickets").complexity =
      Complexity.multiStep :=
  ⟨⟨by decide, by decide⟩,
   c2_active_customers_tickets_tier _ (by decide) (by decide)⟩

/-- Claim C3: every query whose lowercase form contains one of `"and"`,
`"also"`, `"then"`, `"after"` is classified multi-step; in particular an
otherwise complex classification is overridden. -/
theorem c3_multi_step_keywords_override (q : String)
    (h : (["and", "also", "then", "after"].any fun k => pyIn k (pyLower q)) = true) :
    (analyzeQuery q).complexity = Complexity.multiStep := by
  simp only [analyzeQuery, h]
  split_ifs <;> simp_all

/-- Witness for claim C3: the query would otherwise be complex (it needs
both capabilities) and is overridden to multi-step by `"and"`. -/
theorem c3_witness :
    ((["and", "also", "then", "after"].any fun k =>
        pyIn k (pyLower "show my customer account and open a support ticket")) = true) ∧
    (analyzeQuery "show my customer account and open a support ticket").complexity =
      Complexity.multiStep :=
  ⟨by decide, c3_multi_step_keywords_override _ (by decide)⟩

/-- Claim C4: `extract_customer_id` tries its patterns in fixed priority
order with the first match winning.  Whenever the lowered query contains
`"customer"` followed by white-space and the single maximal digit run of
the query (value `N`), and neither higher-priority pattern
(`customer id N`, `id N`) matches anywhere, the extractor returns `N`.
In particular `"customer id: 42 needs help"` and `"I'm customer 42"` both
yield 42, and a query matching no pattern yields no identifier. -/
theorem c4_extract_customer_id_priority :
    (∀ (q : String) (N : Nat) (pre ws ds post : List Char),
        (pyLower q).data = pre ++ "customer".data ++ ws ++ ds ++ post →
        ws ≠ [] → (∀ c ∈ ws, isPySpace c = true) →
        ds ≠ [] → (∀ c ∈ ds, isDigitCh c = true) →
        digitsVal ds = N →
        (∀ c ∈ pre, isDigitCh c = false) →
        (∀ c ∈ post, isDigitCh c = false) →
        reSearch matchP1At (pyLower q).data = none →
        reSearch matchP2At (pyLower q).data = none →
        extract_customer_id q = some N) ∧
    extract_customer_id "customer id: 42 needs help" = some 42 ∧
    extract_customer_id "I'm customer 42" = some 42 ∧
    extract_customer_id "hello there" = none := by
  refine ⟨?_, by decide, by decide, by decide⟩
  intro q N pre ws ds post hdec hws0 hws hds0 hds hN hpre hpost h1 h2
  exact extract_id_customer_pattern q N pre ws ds post hdec hws0 hws hds0 hds hN hpre hpost h1 h2

/-- Witness for claim C4 at the query `"customer 7"`. -/
theorem c4_witness :
    ((pyLower "customer 7").data =
      [] ++ "customer".data ++ [' '] ++ ['7'] ++ [] ∧
     reSearch matchP1At (pyLower "customer 7").data = none ∧
     reSearch matchP2At (pyLower "customer 7").data = none) ∧
    extract_customer_id "customer 7" = some 7 :=
  ⟨⟨by decide, by decide, by decide⟩,
   c4_extract_customer_id_priority.1 "customer 7" 7 [] [' '] ['7'] []
     (by decide) (by decide) (by decide) (by decide) (by decide) (by decide)
     (by decide) (by decide) (by decide) (by decide)⟩

/-- Claim C5: the public entry point always returns a string (the embedding
of `process_query` is a total function), and a provider-level failure —
here a `get_customer` on an absent id — surfaces to the calling strategy as
a response with `success = false` carrying non-empty error text, not as a
thrown exception. -/
theorem c5_no_exception_escapes :
    (∀ (st : St) (q : String), ∃ (s : String) (st' : St), processQuery st q = (s, st')) ∧
    (∀ (db : DB) (cid : Nat), dbGetCustomer db cid = none →
      (dataHandleRequest db (.getCustomer cid)).1.success = false ∧
      (dataHandleRequest db (.getCustomer cid)).1.error =
        some ("Customer " ++ toString cid ++ " not found") ∧
      ("Customer " ++ toString cid ++ " not found") ≠ "") := by
  constructor
  · intro st q; exact ⟨_, _, rfl⟩
  · intro db cid h
    refine ⟨?_, ?_, ?_⟩
    · simp [dataHandleRequest, h]
    · simp [dataHandleRequest, h]
    · intro hcon
      have : ("Customer " ++ toString cid ++ " not found").data = [] := by rw [hcon]
      rw [strData_append, strData_append] at this
      simp at this

/-- Witness for claim C5: a `get_customer` on the empty database fails with
error text rather than an exception. -/
theorem c5_witness :
    dbGetCustomer ⟨[], []⟩ 1 = none ∧
    ((dataHandleRequest ⟨[], []⟩ (.getCustomer 1)).1.success = false ∧
     (dataHandleRequest ⟨[], []⟩ (.getCustomer 1)).1.error =
       some ("Customer " ++ toString 1 ++ " not found") ∧
     ("Customer " ++ toString 1 ++ " not found") ≠ "") :=
  ⟨rfl, c5_no_exception_escapes.2 ⟨[], []⟩ 1 rfl⟩

/-- Claim C6: when a customer with id 5 exists, processing
`"Get customer information for ID 5"` issues exactly one dispatch — a Data
Service `get_customer` with id 5 — and the returned text is the
customer-information rendering, which contains the customer's name, email,
phone and status. -/
theorem c6_get_customer_info_single_dispatch (db : DB) (c : Customer)
    (h : dbGetCustomer db 5 = some c) :
    dispatchesOf (processQuery ⟨db, []⟩ "Get customer information for ID 5").2.log =
      [Req.data (DataReq.getCustomer 5)] ∧
    (processQuery ⟨db, []⟩ "Get customer information for ID 5").1 = customerInfoText c ∧
    (∃ x y, (processQuery ⟨db, []⟩ "Get customer information for ID 5").1.data =
      x ++ c.name.data ++ y) ∧
    (∃ x y, (processQuery ⟨db, []⟩ "Get customer information for ID 5").1.data =
      x ++ c.email.data ++ y) ∧
    (∃ x y, (processQuery ⟨db, []⟩ "Get customer information for ID 5").1.data =
      x ++ c.phone.data ++ y) ∧
    (∃ x y, (processQuery ⟨db, []⟩ "Get customer information for ID 5").1.data =
      x ++ c.status.data ++ y) := by
  have htext : (processQuery ⟨db, []⟩ "Get customer information for ID 5").1 =
      customerInfoText c := by
    simp only [processQuery, handleSimpleQuery, logInfo, pushLog, Option.getD,
      show analyzeQuery "Get customer information for ID 5" =
        ⟨"Get customer information for ID 5", some 5, true, false, false, .simple,
         ["data"]⟩ from rfl]
    rw [routeToData_getCustomer _ 5 c h]
    rfl
  refine ⟨?_, htext, ?_, ?_, ?_, ?_⟩
  · simp only [processQuery, handleSimpleQuery, logInfo, pushLog, Option.getD,
      show analyzeQuery "Get customer information for ID 5" =
        ⟨"Get customer information for ID 5", some 5, true, false, false, .simple,
         ["data"]⟩ from rfl]
    rw [routeToData_getCustomer _ 5 c h]
    rfl
  · exact ⟨"Customer Information:\nName: ".data,
      ("\nEmail: " ++ c.email ++ "\nPhone: " ++ c.phone ++ "\nStatus: " ++ c.status).data,
      by rw [htext]; simp [customerInfoText, strData_append]⟩
  · exact ⟨("Customer Information:\nName: " ++ c.name ++ "\nEmail: ").data,
      ("\nPhone: " ++ c.phone ++ "\nStatus: " ++ c.status).data,
      by rw [htext]; simp [customerInfoText, strData_append]⟩
  · exact ⟨("Customer Information:\nName: " ++ c.name ++ "\nEmail: " ++ c.email ++
        "\nPhone: ").data,
      ("\nStatus: " ++ c.status).data,
      by rw [htext]; simp [customerInfoText, strData_append]⟩
  · exact ⟨("Customer Information:\nName: " ++ c.name ++ "\nEmail: " ++ c.email ++
        "\nPhone: " ++ c.phone ++ "\nStatus: ").data, [],
      by rw [htext]; simp [customerInfoText, strData_append]⟩

/-- Witness for claim C6 on the sample database. -/
theorem c6_witness :
    dbGetCustomer sampleDB 5 = some sampleCustomer5 ∧
    (dispatchesOf (processQuery ⟨sampleDB, []⟩ "Get customer information for ID 5").2.log =
      [Req.data (DataReq.getCustomer 5)] ∧
    (processQuery ⟨sampleDB, []⟩ "Get customer information for ID 5").1 =
      customerInfoText sampleCustomer5 ∧
    (∃ x y, (processQuery ⟨sampleDB, []⟩ "Get customer information for ID 5").1.data =
      x ++ sampleCustomer5.name.data ++ y) ∧
    (∃ x y, (processQuery ⟨sampleDB, []⟩ "Get customer information for ID 5").1.data =
      x ++ sampleCustomer5.email.data ++ y) ∧
    (∃ x y, (processQuery ⟨sampleDB, []⟩ "Get customer information for ID 5").1.data =
      x ++ sampleCustomer5.phone.data ++ y) ∧
    (∃ x y, (processQuery ⟨sampleDB, []⟩ "Get customer information for ID 5").1.data =
      x ++ sampleCustomer5.status.data ++ y)) :=
  ⟨by decide, c6_get_customer_info_single_dispatch sampleDB sampleCustomer5 (by decide)⟩

/-- Claim C7: when a customer with id 2 exists, processing
`"I'm customer 2 and having login issues"` issues the Data Service
`get_customer` dispatch strictly before the Support Service dispatch, and
the Support Service `handle_query` dispatch carries the fetched customer
record as `customer_data` context. -/
theorem c7_data_before_support_with_context (db : DB) (c : Customer)
    (h : dbGetCustomer db 2 = some c) :
    dispatchesOf (processQuery ⟨db, []⟩ "I'm customer 2 and having login issues").2.log =
      [Req.data (DataReq.getCustomer 2),
       Req.support (.handleQuery "I'm customer 2 and having login issues" (some c))] := by
  simp only [processQuery, handleMultiStepQuery, msCase4, logInfo, pushLog, Option.getD,
    show analyzeQuery "I'm customer 2 and having login issues" =
      ⟨"I'm customer 2 and having login issues", some 2, true, true, true, .multiStep,
       ["data", "support"]⟩ from rfl]
  rw [routeToData_getCustomer _ 2 c h]
  rfl

/-- Witness for claim C7 on the sample database. -/
theorem c7_witness :
    dbGetCustomer sampleDB 2 = some sampleCustomer2 ∧
    dispatchesOf (processQuery ⟨sampleDB, []⟩ "I'm customer 2 and having login issues").2.log =
      [Req.data (DataReq.getCustomer 2),
       Req.support (.handleQuery "I'm customer 2 and having login issues"
         (some sampleCustomer2))] :=
  ⟨by decide, c7_data_before_support_with_context sampleDB sampleCustomer2 (by decide)⟩

/-- Claim C8: each dispatch appends one outbound and one inbound trace
entry, in chronological (append) order; a sequence of N dispatches grows
the trace by at least 2N entries while preserving the existing entries in
front; and `clear_trace` empties the trace unconditionally. -/
theorem c8_trace_invariant :
    (∀ (st : St) (r : Req), ∃ ok, (dispatchOne st r).log =
      st.log ++ [LogEntry.a2aSend routerName (reqTarget r) r,
                 LogEntry.a2aRecv (reqTarget r) routerName ok]) ∧
    (∀ (st : St) (rs : List Req),
      st.log.length + 2 * rs.length ≤ (getCoordinationLog (runDispatches st rs)).length ∧
      ∃ d, getCoordinationLog (runDispatches st rs) = st.log ++ d) ∧
    (∀ st : St, getCoordinationLog (clearCoordinationLog st) = []) :=
  ⟨dispatchOne_log, runDispatches_log, fun _ => rfl⟩

/-- Claim C9: processing is deterministic in the query and the provider
state.  After a first call that left the provider state unmodified, a
second call with the same query yields the identical synthesized text —
classification and formatting are functions of the query and the database
alone, not of the accumulated trace. -/
theorem c9_process_idempotent (q : String) (st : St)
    (h : (processQuery st q).2.db = st.db) :
    (processQuery ((processQuery st q).2) q).1 = (processQuery st q).1 := by
  obtain ⟨db, l⟩ := st
  have h1 := processQuery_obs q db l
  have h2 := processQuery_obs q ((processQuery ⟨db, l⟩ q).2).db
    ((processQuery ⟨db, l⟩ q).2).log
  calc (processQuery ((processQuery ⟨db, l⟩ q).2) q).1
      = (processData q ((processQuery ⟨db, l⟩ q).2).db).1 := h2.1
    _ = (processData q db).1 := by rw [h]
    _ = (processQuery ⟨db, l⟩ q).1 := h1.1.symm

/-- Witness for claim C9: a query that leaves the provider state unchanged
yields the same text when processed twice in a row. -/
theorem c9_witness :
    (processQuery ⟨sampleDB, []⟩ "xyzzy").2.db = (⟨sampleDB, []⟩ : St).db ∧
    (processQuery ((processQuery ⟨sampleDB, []⟩ "xyzzy").2) "xyzzy").1 =
      (processQuery ⟨sampleDB, []⟩ "xyzzy").1 :=
  ⟨rfl, c9_process_idempotent "xyzzy" ⟨sampleDB, []⟩ rfl⟩

/-- Claim C10: invariant of the classifier — the analysis flags
`needs_coordination` exactly when the complexity tier is not simple. -/
theorem c10_needs_coordination_iff_not_simple (q : String) :
    (analyzeQuery q).needs_coordination = true ↔
      (analyzeQuery q).complexity ≠ Complexity.simple := by
  simp only [analyzeQuery]
  split_ifs <;> simp_all
